import Mathlib

/-!
# Formal model of the DAWN execution engine

Shallow embedding of the DAWN orchestrator core (`src/dawn/runtime/orchestrator.py`,
`src/dawn/policy/policy_loader.py`, `src/dawn/runtime/artifact_store.py`,
`src/dawn/runtime/sandbox.py`, `src/dawn/runtime/ledger.py`).

Modelling conventions:
* Python dicts parsed from YAML/JSON are modelled by the inductive `Json` type,
  with objects as association lists (insertion order preserved, as in CPython).
* Byte strings are `List Nat` (one `Nat` per byte, each < 256).
* File-system paths are project-root-relative strings; the on-disk project tree
  is a `Disk` structure holding file bytes, modification-time tokens, and the
  parsed JSON view of each file (Python reads files twice: once as bytes for
  digests, once via `json.load`; the model carries both views per file).
* Wall-clock floats (timestamps, coherence scores) are not representable in the
  embedding; where the code branches on them the branch outcome is supplied as
  an explicit external input (`LinkWorld`), exactly like the behaviour of the
  out-of-scope plugin `run()` callables themselves.
-/

set_option linter.unusedVariables false

/-- JSON/YAML value as produced by `yaml.safe_load` / `json.load`.
Objects are association lists in insertion order; numeric scalars are modelled
as integers (none of the modelled code paths depend on float-valued fields). -/
inductive Json where
  | null : Json
  | bool (b : Bool) : Json
  | num (n : Int) : Json
  | str (s : String) : Json
  | arr (elems : List Json) : Json
  | obj (fields : List (String × Json)) : Json

namespace Json

mutual

/-- Structural equality test (Python `==` on parsed JSON values). -/
def beq : Json → Json → Bool
  | .null, .null => true
  | .bool a, .bool b => a == b
  | .num a, .num b => a == b
  | .str a, .str b => a == b
  | .arr xs, .arr ys => beqList xs ys
  | .obj fs, .obj gs => beqFields fs gs
  | _, _ => false

def beqList : List Json → List Json → Bool
  | [], [] => true
  | j :: js, l :: ls => beq j l && beqList js ls
  | _, _ => false

def beqFields : List (String × Json) → List (String × Json) → Bool
  | [], [] => true
  | (ka, va) :: fs, (kb, vb) :: gs => ka == kb && beq va vb && beqFields fs gs
  | _, _ => false

end

mutual

theorem eq_of_beq : ∀ {a b : Json}, beq a b = true → a = b
  | .null, .null, _ => rfl
  | .bool _, .bool _, h => by simpa [beq] using h
  | .num _, .num _, h => by simpa [beq] using h
  | .str _, .str _, h => by simpa [beq] using h
  | .arr xs, .arr ys, h => by
      have := @eqList_of_beqList xs ys (by simpa [beq] using h)
      rw [this]
  | .obj fs, .obj gs, h => by
      have := @eqFields_of_beqFields fs gs (by simpa [beq] using h)
      rw [this]

theorem eqList_of_beqList : ∀ {xs ys : List Json}, beqList xs ys = true → xs = ys
  | [], [], _ => rfl
  | x :: xs, y :: ys, h => by
      have h' : beq x y = true ∧ beqList xs ys = true := by simpa [beqList] using h
      rw [eq_of_beq h'.1, eqList_of_beqList h'.2]

theorem eqFields_of_beqFields :
    ∀ {fs gs : List (String × Json)}, beqFields fs gs = true → fs = gs
  | [], [], _ => rfl
  | (k₁, v₁) :: xs, (k₂, v₂) :: ys, h => by
      have h' : k₁ = k₂ ∧ beq v₁ v₂ = true ∧ beqFields xs ys = true := by
        simpa [beqFields, and_assoc] using h
      rw [h'.1, eq_of_beq h'.2.1, eqFields_of_beqFields h'.2.2]

end

mutual

theorem beq_refl : ∀ (a : Json), beq a a = true
  | .null => rfl
  | .bool b => by simp [beq]
  | .num n => by simp [beq]
  | .str s => by simp [beq]
  | .arr xs => by simpa [beq] using beqList_refl xs
  | .obj fs => by simpa [beq] using beqFields_refl fs

theorem beqList_refl : ∀ (xs : List Json), beqList xs xs = true
  | [] => rfl
  | x :: xs => by simp [beqList, beq_refl x, beqList_refl xs]

theorem beqFields_refl : ∀ (fs : List (String × Json)), beqFields fs fs = true
  | [] => rfl
  | (k, v) :: fs => by simp [beqFields, beq_refl v, beqFields_refl fs]

end

instance : DecidableEq Json := fun a b =>
  if h : beq a b = true then .isTrue (eq_of_beq h)
  else .isFalse (fun hab => h (hab ▸ beq_refl a))

/-- `d.get(k)` / `d[k]` on a Python dict: first binding of the key.
On non-dict values the model returns `none` (the modelled call sites guard the
shape or are only reached with dict values). -/
def get? : Json → String → Option Json
  | .obj fields, k => (fields.find? (fun p => p.1 = k)).map (·.2)
  | _, _ => none

/-- `k in d` on a Python dict. -/
def hasKey (j : Json) (k : String) : Bool := (j.get? k).isSome

/-- `d.get(k, {})`. -/
def getObjD (j : Json) (k : String) : Json := (j.get? k).getD (.obj [])

/-- `d.get(k, default)` for a string-valued field, yielding `default` when the
key is absent and the raw value otherwise restricted to strings. -/
def getStr? (j : Json) (k : String) : Option String :=
  match j.get? k with
  | some (.str s) => some s
  | _ => none

/-- Python truthiness (`bool(x)`) of a JSON value. -/
def truthy : Json → Bool
  | .null => false
  | .bool b => b
  | .num n => n ≠ 0
  | .str s => s ≠ ""
  | .arr xs => !xs.isEmpty
  | .obj fs => !fs.isEmpty

end Json

/-! ### Python string primitives used by the engine -/

/-- `s.startswith(p)` (Python). -/
def pyStartsWith (s p : String) : Bool := p.data.isPrefixOf s.data

/-- `s.endswith(p)` (Python). -/
def pyEndsWith (s p : String) : Bool := p.data.isSuffixOf s.data

/-- `p in s` (Python substring containment). -/
def pyContains (s p : String) : Bool := decide (p.data <:+: s.data)

/-- `s[a:-1]` (Python slice from index `a` up to the last character). -/
def pySliceToLast (s : String) (a : Nat) : String := ⟨(s.data.drop a).dropLast⟩

/-! ### UTF-8 encoding (Python `str.encode()`) -/

/-- UTF-8 encoding of one Unicode code point. -/
def utf8EncodeChar (c : Char) : List Nat :=
  let n := c.toNat
  if n < 0x80 then [n]
  else if n < 0x800 then [0xC0 + n / 64, 0x80 + n % 64]
  else if n < 0x10000 then [0xE0 + n / 4096, 0x80 + (n / 64) % 64, 0x80 + n % 64]
  else [0xF0 + n / 262144, 0x80 + (n / 4096) % 64, 0x80 + (n / 64) % 64, 0x80 + n % 64]

/-- `s.encode()`: UTF-8 bytes of a string. -/
def utf8Bytes (s : String) : List Nat := s.data.flatMap utf8EncodeChar

/-! ### SHA-256 (`hashlib.sha256`), FIPS 180-4, over byte lists -/

namespace Sha256

def M32 : Nat := 4294967296

def rotr (n x : Nat) : Nat := ((x >>> n) ||| (x <<< (32 - n))) % M32

def shr (n x : Nat) : Nat := x >>> n

def K : List Nat :=
  [1116352408, 1899447441, 3049323471, 3921009573, 961987163, 1508970993,
   2453635748, 2870763221, 3624381080, 310598401, 607225278, 1426881987,
   1925078388, 2162078206, 2614888103, 3248222580, 3835390401, 4022224774,
   264347078, 604807628, 770255983, 1249150122, 1555081692, 1996064986,
   2554220882, 2821834349, 2952996808, 3210313671, 3336571891, 3584528711,
   113926993, 338241895, 666307205, 773529912, 1294757372, 1396182291,
   1695183700, 1986661051, 2177026350, 2456956037, 2730485921, 2820302411,
   3259730800, 3345764771, 3516065817, 3600352804, 4094571909, 275423344,
   430227734, 506948616, 659060556, 883997877, 958139571, 1322822218,
   1537002063, 1747873779, 1955562222, 2024104815, 2227730452, 2361852424,
   2428436474, 2756734187, 3204031479, 3329325298]

def initH : List Nat :=
  [1779033703, 3144134277, 1013904242, 2773480762,
   1359893119, 2600822924, 528734635, 1541459225]

/-- Append SHA-256 padding: 0x80, zeros, 8-byte big-endian bit length. -/
def pad (msg : List Nat) : List Nat :=
  let len := msg.length
  let bitLen := len * 8
  let zeros := (64 - (len + 9) % 64) % 64
  msg ++ [0x80] ++ List.replicate zeros 0 ++
    [(bitLen >>> 56) % 256, (bitLen >>> 48) % 256, (bitLen >>> 40) % 256, (bitLen >>> 32) % 256,
     (bitLen >>> 24) % 256, (bitLen >>> 16) % 256, (bitLen >>> 8) % 256, bitLen % 256]

/-- Split a byte list into 64-byte blocks (fuel-based so that the kernel can
evaluate it; the fuel `bs.length` always suffices). -/
def toBlocksAux : Nat → List Nat → List (List Nat)
  | 0, _ => []
  | _, [] => []
  | fuel + 1, b :: bs => ((b :: bs).take 64) :: toBlocksAux fuel ((b :: bs).drop 64)

/-- Split a byte list into 64-byte blocks (length must be a multiple of 64). -/
def toBlocks (bs : List Nat) : List (List Nat) := toBlocksAux bs.length bs

/-- Combine 4 bytes big-endian into a 32-bit word. -/
def word4 : List Nat → Nat
  | a :: b :: c :: d :: _ => ((a * 256 + b) * 256 + c) * 256 + d
  | _ => 0

/-- The 16 initial schedule words of a 64-byte block. -/
def blockWords (blk : List Nat) : List Nat :=
  (List.range 16).map (fun i => word4 (blk.drop (4 * i)))

def smallSigma0 (x : Nat) : Nat := (rotr 7 x) ^^^ (rotr 18 x) ^^^ (shr 3 x)
def smallSigma1 (x : Nat) : Nat := (rotr 17 x) ^^^ (rotr 19 x) ^^^ (shr 10 x)
def bigSigma0 (x : Nat) : Nat := (rotr 2 x) ^^^ (rotr 13 x) ^^^ (rotr 22 x)
def bigSigma1 (x : Nat) : Nat := (rotr 6 x) ^^^ (rotr 11 x) ^^^ (rotr 25 x)

/-- Extend the 16 block words to the 64-entry message schedule.
`ws` is the reversed list of words produced so far. -/
def extendSchedule : Nat → List Nat → List Nat
  | 0, ws => ws.reverse
  | k + 1, ws =>
    let w2 := ws.getD 1 0
    let w7 := ws.getD 6 0
    let w15 := ws.getD 14 0
    let w16 := ws.getD 15 0
    extendSchedule k ((smallSigma1 w2 + w7 + smallSigma0 w15 + w16) % M32 :: ws)

def schedule (blk : List Nat) : List Nat :=
  extendSchedule 48 (blockWords blk).reverse

/-- One round of the SHA-256 compression function. -/
def round (st : List Nat) (kw : Nat × Nat) : List Nat :=
  match st with
  | [a, b, c, d, e, f, g, h] =>
    let t1 := (h + bigSigma1 e + ((e &&& f) ^^^ ((M32 - 1 - e) &&& g)) + kw.1 + kw.2) % M32
    let t2 := (bigSigma0 a + ((a &&& b) ^^^ (a &&& c) ^^^ (b &&& c))) % M32
    [(t1 + t2) % M32, a, b, c, (d + t1) % M32, e, f, g]
  | st => st

/-- Process one 64-byte block. -/
def compress (h : List Nat) (blk : List Nat) : List Nat :=
  let ws := schedule blk
  let final := (K.zip ws).foldl round h
  (h.zip final).map (fun p => (p.1 + p.2) % M32)

/-- SHA-256 digest of a byte list, as 32 bytes. -/
def sha256 (msg : List Nat) : List Nat :=
  let h := (toBlocks (pad msg)).foldl compress initH
  h.flatMap (fun w => [(w >>> 24) % 256, (w >>> 16) % 256, (w >>> 8) % 256, w % 256])

def hexDigit (n : Nat) : Char :=
  if n < 10 then Char.ofNat (48 + n) else Char.ofNat (87 + n)

/-- Lower-case hex string of a byte list (`hexdigest()`). -/
def bytesToHex (bs : List Nat) : String :=
  ⟨bs.flatMap (fun b => [hexDigit (b / 16), hexDigit (b % 16)])⟩

/-- `hashlib.sha256(msg).hexdigest()`. -/
def sha256hex (msg : List Nat) : String := bytesToHex (sha256 msg)

end Sha256

export Sha256 (sha256 sha256hex)

/-! ### `json.dumps` (CPython, `ensure_ascii=True`) -/

/-- Decimal digits of a natural number (fuel-based for kernel evaluation). -/
def natDigitsAux : Nat → Nat → List Char
  | 0, _ => []
  | fuel + 1, n =>
    if n < 10 then [Sha256.hexDigit n]
    else natDigitsAux fuel (n / 10) ++ [Sha256.hexDigit (n % 10)]

/-- Decimal representation of a natural number. -/
def natRepr (n : Nat) : String := ⟨natDigitsAux (n + 1) n⟩

/-- Decimal representation of an integer (Python `repr` of an `int`). -/
def intRepr : Int → String
  | .ofNat n => natRepr n
  | .negSucc n => "-" ++ natRepr (n + 1)

/-- Four lower-case hex digits (used in `\uXXXX` escapes). -/
def uHex4 (n : Nat) : String :=
  ⟨[Sha256.hexDigit (n / 4096 % 16), Sha256.hexDigit (n / 256 % 16),
    Sha256.hexDigit (n / 16 % 16), Sha256.hexDigit (n % 16)]⟩

/-- Escape one character as CPython's `json.dumps` does with `ensure_ascii=True`:
short escapes for the usual control characters and `"`/`\`, `\uXXXX` for other
control characters and all non-ASCII characters (surrogate pairs beyond the
BMP), everything else verbatim. -/
def jsonEscapeChar (c : Char) : String :=
  if c = '"' then "\\\""
  else if c = '\\' then "\\\\"
  else if c = '\n' then "\\n"
  else if c = '\t' then "\\t"
  else if c = '\r' then "\\r"
  else if c.toNat = 8 then "\\b"
  else if c.toNat = 12 then "\\f"
  else if c.toNat < 32 then "\\u" ++ uHex4 c.toNat
  else if c.toNat < 128 then String.singleton c
  else if c.toNat < 65536 then "\\u" ++ uHex4 c.toNat
  else
    let v := c.toNat - 65536
    "\\u" ++ uHex4 (55296 + v / 1024) ++ "\\u" ++ uHex4 (56320 + v % 1024)

/-- A JSON string literal for `s`. -/
def jsonQuote (s : String) : String :=
  "\"" ++ String.join (s.data.map jsonEscapeChar) ++ "\""

/-- Order in which `json.dumps(..., sort_keys=True)` emits the members of an
object: ascending key. The value string is used as a tie-break, which agrees
with CPython's stable key sort on every dict (dict keys are unique) and makes
the order antisymmetric. -/
def entryLE (a b : String × String) : Prop :=
  a.1 < b.1 ∨ (a.1 = b.1 ∧ a.2 ≤ b.2)

instance : DecidableRel entryLE := fun a b => by unfold entryLE; infer_instance

instance : IsTrans (String × String) entryLE where
  trans a b c hab hbc := by
    rcases hab with h₁ | ⟨e₁, l₁⟩ <;> rcases hbc with h₂ | ⟨e₂, l₂⟩
    · exact Or.inl (lt_trans h₁ h₂)
    · exact Or.inl (e₂ ▸ h₁)
    · exact Or.inl (e₁ ▸ h₂)
    · exact Or.inr ⟨e₁.trans e₂, le_trans l₁ l₂⟩

instance : IsTotal (String × String) entryLE where
  total a b := by
    rcases lt_trichotomy a.1 b.1 with h | h | h
    · exact Or.inl (Or.inl h)
    · rcases le_total a.2 b.2 with h' | h'
      · exact Or.inl (Or.inr ⟨h, h'⟩)
      · exact Or.inr (Or.inr ⟨h.symm, h'⟩)
    · exact Or.inr (Or.inl h)

instance : IsAntisymm (String × String) entryLE where
  antisymm a b hab hba := by
    rcases hab with h₁ | ⟨e₁, l₁⟩
    · rcases hba with h₂ | ⟨e₂, l₂⟩
      · exact absurd h₂ (lt_asymm h₁)
      · exact absurd h₁ (e₂ ▸ lt_irrefl _)
    · rcases hba with h₂ | ⟨e₂, l₂⟩
      · exact absurd h₂ (e₁ ▸ lt_irrefl _)
      · exact Prod.ext e₁ (le_antisymm l₁ l₂)

mutual

/-- `json.dumps(j, sort_keys=sortKeys)` with item separator `isep` and
key separator `ksep`.  `_compute_digest` uses `sortKeys := true`,
`isep := ","`, `ksep := ":"`; `_calculate_input_signature` uses
`sortKeys := true` with the default separators `", "` and `": "`. -/
def Json.dumpsWith (sortKeys : Bool) (isep ksep : String) : Json → String
  | .null => "null"
  | .bool true => "true"
  | .bool false => "false"
  | .num n => intRepr n
  | .str s => jsonQuote s
  | .arr xs => "[" ++ String.intercalate isep (Json.dumpsWithList sortKeys isep ksep xs) ++ "]"
  | .obj fs =>
      let entries := Json.dumpsWithFields sortKeys isep ksep fs
      let entries := if sortKeys then List.insertionSort entryLE entries else entries
      "\x7b" ++
        String.intercalate isep (entries.map (fun e => jsonQuote e.1 ++ ksep ++ e.2)) ++
        "\x7d"

def Json.dumpsWithList (sortKeys : Bool) (isep ksep : String) : List Json → List String
  | [] => []
  | x :: xs => Json.dumpsWith sortKeys isep ksep x :: Json.dumpsWithList sortKeys isep ksep xs

def Json.dumpsWithFields (sortKeys : Bool) (isep ksep : String) :
    List (String × Json) → List (String × String)
  | [] => []
  | (k, v) :: fs =>
      (k, Json.dumpsWith sortKeys isep ksep v) :: Json.dumpsWithFields sortKeys isep ksep fs

end

/-- `json.dumps(j, sort_keys=True, separators=(',', ':'))` — the
canonicalisation used by `PolicyLoader._compute_digest`. -/
def Json.dumpsCanonical (j : Json) : String := j.dumpsWith true "," ":"

/-- `json.dumps(j, sort_keys=True)` (default separators) — used by
`Orchestrator._calculate_input_signature` for the config hash. -/
def Json.dumpsSortedDefault (j : Json) : String := j.dumpsWith true ", " ": "

/-- `json.dumps(j)` with default settings — used for, e.g., ledger event
lines. (Files written with `indent=2` are modelled with this compact dump;
no modelled claim depends on the whitespace of those files.) -/
def Json.dumpsPlain (j : Json) : String := j.dumpsWith false ", " ": "

/-! ### "Differing only in key order" -/

mutual

/-- Two parsed documents denote the same mapping and differ at most in the
order of object keys: scalars are identical, arrays are pointwise related, and
the field list of one object is a permutation of the other's matching equal
keys with related values. -/
inductive Json.SameMapping : Json → Json → Prop where
  | null : Json.SameMapping .null .null
  | bool (b : Bool) : Json.SameMapping (.bool b) (.bool b)
  | num (n : Int) : Json.SameMapping (.num n) (.num n)
  | str (s : String) : Json.SameMapping (.str s) (.str s)
  | arr {xs ys : List Json} :
      Json.SameMappingList xs ys → Json.SameMapping (.arr xs) (.arr ys)
  | obj {fs l gs : List (String × Json)} :
      Json.SameMappingFields fs l → l.Perm gs →
      Json.SameMapping (.obj fs) (.obj gs)

inductive Json.SameMappingList : List Json → List Json → Prop where
  | nil : Json.SameMappingList [] []
  | cons {x y : Json} {xs ys : List Json} :
      Json.SameMapping x y → Json.SameMappingList xs ys →
      Json.SameMappingList (x :: xs) (y :: ys)

inductive Json.SameMappingFields :
    List (String × Json) → List (String × Json) → Prop where
  | nil : Json.SameMappingFields [] []
  | cons (k : String) {v w : Json} {fs gs : List (String × Json)} :
      Json.SameMapping v w → Json.SameMappingFields fs gs →
      Json.SameMappingFields ((k, v) :: fs) ((k, w) :: gs)

end

/-- A sort by an antisymmetric total order is invariant under permutation of
its input. -/
theorem insertionSort_eq_of_perm {l₁ l₂ : List (String × String)} (h : l₁.Perm l₂) :
    List.insertionSort entryLE l₁ = List.insertionSort entryLE l₂ :=
  List.eq_of_perm_of_sorted
    ((List.perm_insertionSort _ _).trans (h.trans (List.perm_insertionSort _ _).symm))
    (List.sorted_insertionSort _ _) (List.sorted_insertionSort _ _)

theorem Json.dumpsWithFields_eq_map (sortKeys : Bool) (isep ksep : String) :
    ∀ fs, Json.dumpsWithFields sortKeys isep ksep fs
        = fs.map (fun p => (p.1, Json.dumpsWith sortKeys isep ksep p.2))
  | [] => rfl
  | (k, v) :: fs => by
      rw [Json.dumpsWithFields, Json.dumpsWithFields_eq_map sortKeys isep ksep fs]
      rfl

mutual

/-- Sorted-key serialization is insensitive to the key order of the input. -/
theorem Json.dumpsWith_congr_sameMapping (isep ksep : String) :
    ∀ {a b : Json}, Json.SameMapping a b →
      Json.dumpsWith true isep ksep a = Json.dumpsWith true isep ksep b
  | _, _, .null => rfl
  | _, _, .bool b => rfl
  | _, _, .num n => rfl
  | _, _, .str s => rfl
  | _, _, .arr h => by
      rw [Json.dumpsWith, Json.dumpsWith,
        Json.dumpsWithList_congr_sameMapping isep ksep h]
  | _, _, @Json.SameMapping.obj fs l gs hrel hperm => by
      rw [Json.dumpsWith, Json.dumpsWith]
      have h₁ := Json.dumpsWithFields_congr_sameMapping isep ksep hrel
      have h₂ : (Json.dumpsWithFields true isep ksep l).Perm
          (Json.dumpsWithFields true isep ksep gs) := by
        rw [Json.dumpsWithFields_eq_map, Json.dumpsWithFields_eq_map]
        exact hperm.map _
      simp only [h₁, insertionSort_eq_of_perm h₂, if_pos trivial]

theorem Json.dumpsWithList_congr_sameMapping (isep ksep : String) :
    ∀ {xs ys : List Json}, Json.SameMappingList xs ys →
      Json.dumpsWithList true isep ksep xs = Json.dumpsWithList true isep ksep ys
  | _, _, .nil => rfl
  | _, _, .cons h hs => by
      rw [Json.dumpsWithList, Json.dumpsWithList,
        Json.dumpsWith_congr_sameMapping isep ksep h,
        Json.dumpsWithList_congr_sameMapping isep ksep hs]

theorem Json.dumpsWithFields_congr_sameMapping (isep ksep : String) :
    ∀ {fs gs : List (String × Json)}, Json.SameMappingFields fs gs →
      Json.dumpsWithFields true isep ksep fs = Json.dumpsWithFields true isep ksep gs
  | _, _, .nil => rfl
  | _, _, .cons k h hs => by
      rw [Json.dumpsWithFields, Json.dumpsWithFields,
        Json.dumpsWith_congr_sameMapping isep ksep h,
        Json.dumpsWithFields_congr_sameMapping isep ksep hs]

end

/-!
## PolicyLoader (`src/dawn/policy/policy_loader.py`)

The loader's mutable attributes `_policy`/`_digest` are the `LoaderState`;
`load()` both returns a value (or raises) and leaves the attribute updates
performed before the exception in place, so it is modelled as a function
returning the result together with the post-call state.
-/

namespace PolicyLoader

def REQUIRED_KEYS : List String :=
  ["version", "budgets", "security", "profiles", "default_profile"]

def REQUIRED_BUDGET_SECTIONS : List String := ["per_link", "per_project"]

def REQUIRED_PER_LINK_KEYS : List String := ["max_wall_time_sec", "max_output_bytes"]

def REQUIRED_PER_PROJECT_KEYS : List String := ["max_project_bytes"]

def REQUIRED_PROFILE_KEYS : List String := ["allow_src_writes", "artifact_only_outputs"]

/-- The first key of `keys` missing from the mapping `j` — the `for` loops in
`_validate` raise at the first missing key. -/
def firstMissing (keys : List String) (j : Json) : Option String :=
  keys.find? (fun k => !(j.hasKey k))

/-- The fields of `profiles` as iterated by `profiles.items()`. (A non-dict
`profiles` value would raise `AttributeError` in Python; such degenerate
documents are outside the modelled claims.) -/
def fieldsOf (j : Json) : List (String × Json) :=
  match j with
  | .obj fs => fs
  | _ => []

/-- The first profile (in insertion order) missing one of the required profile
keys, together with that key. -/
def firstBadProfile (profiles : List (String × Json)) : Option (String × String) :=
  profiles.findSome? (fun pr =>
    (firstMissing REQUIRED_PROFILE_KEYS pr.2).map (fun k => (pr.1, k)))

/-- `self._policy.get("version", "")` followed by `.startswith("1.")`; the
modelled check only fires on string versions (a non-string version would raise
`AttributeError` in Python). -/
def versionStartsWith1 (p : Json) : Bool :=
  match p.get? "version" with
  | some (.str s) => pyStartsWith s "1."
  | _ => false

/-- `default_profile in profiles` (dict key membership). -/
def defaultProfileFound (dp : Json) (profiles : Json) : Bool :=
  match dp with
  | .str s => (fieldsOf profiles).any (fun pr => pr.1 = s)
  | _ => false

/-- Rough model of Python `str(x)` as interpolated into error messages; none
of the claims depend on this text. -/
def pyStrOf : Json → String
  | .str s => s
  | j => j.dumpsPlain

/-- `PolicyLoader._validate` (lines 62–114): the nested required-key checks in
source order, raising `PolicyValidationError` (the `.error` branch) at the
first failure. -/
def validate (p : Json) : Except String Unit :=
  match firstMissing REQUIRED_KEYS p with
  | some k => .error ("Missing required key: " ++ k)
  | none =>
  match firstMissing REQUIRED_BUDGET_SECTIONS (p.getObjD "budgets") with
  | some s => .error ("Missing required budget section: budgets." ++ s)
  | none =>
  match firstMissing REQUIRED_PER_LINK_KEYS ((p.getObjD "budgets").getObjD "per_link") with
  | some k => .error ("Missing required budget key: budgets.per_link." ++ k)
  | none =>
  match firstMissing REQUIRED_PER_PROJECT_KEYS ((p.getObjD "budgets").getObjD "per_project") with
  | some k => .error ("Missing required budget key: budgets.per_project." ++ k)
  | none =>
  if !defaultProfileFound ((p.get? "default_profile").getD .null) (p.getObjD "profiles") then
    .error ("default_profile '" ++ pyStrOf ((p.get? "default_profile").getD .null) ++
      "' not found in profiles")
  else
  match firstBadProfile (fieldsOf (p.getObjD "profiles")) with
  | some pk => .error ("Missing required key in profile '" ++ pk.1 ++ "': " ++ pk.2)
  | none =>
  if versionStartsWith1 p then
    .error "Policy version uses deprecated schema. Migrate to version 2.0.0."
  else
  if p.hasKey "limits" then
    .error "Deprecated 'limits' block found. Remove it and use 'budgets' block instead."
  else
    .ok ()

/-- `PolicyLoader._compute_digest`: SHA-256 of the canonical (sorted-key,
compact-separator) JSON serialization of the loaded policy. -/
def computeDigest (p : Json) : String := sha256hex (utf8Bytes p.dumpsCanonical)

/-- The content handed to `load()` by the file system and YAML parser. -/
inductive PolicyFileInput where
  | missing
  | malformedYaml
  | content (doc : Option Json)

/-- The loader's cached attributes `_policy` and `_digest`. -/
structure LoaderState where
  policy : Option Json
  digest : Option String

/-- A freshly constructed loader (`__init__` sets both attributes to `None`). -/
def LoaderState.fresh : LoaderState := ⟨none, none⟩

/-- `PolicyLoader.load` (lines 43–60). All `.error` results model raised
`PolicyValidationError`s. Note that `self._policy` is assigned the parsed
document *before* `_validate` runs, so a validation failure leaves the invalid
document cached. -/
def load : PolicyFileInput → LoaderState → Except String Json × LoaderState
  | .missing, st => (.error "Policy file not found", st)
  | .malformedYaml, st => (.error "Invalid YAML in policy file", st)
  | .content doc, st =>
    let st' : LoaderState := { st with policy := doc }
    match doc with
    | none => (.error "Policy file is empty", st')
    | some p =>
      match validate p with
      | .error msg => (.error msg, st')
      | .ok _ => (.ok p, { st' with digest := some (computeDigest p) })

/-- The `policy` property: `none` models the `RuntimeError("Policy not
loaded. Call load() first.")` raised when `_policy is None`. -/
def LoaderState.policyProperty (st : LoaderState) : Option Json := st.policy

/-- The `digest` property, analogously. -/
def LoaderState.digestProperty (st : LoaderState) : Option String := st.digest

/-- The `version` property over a loaded policy:
`self.policy.get("version", "unknown")`. -/
def versionVal (p : Json) : Json := (p.get? "version").getD (.str "unknown")

/-- `PolicyLoader.get_profile`: the named (or default) profile, or a raised
`PolicyValidationError` when it does not exist. -/
def get_profile (p : Json) (profileName : Option String) : Except String Json :=
  let pn : Json :=
    match profileName with
    | some n => .str n
    | none => (p.get? "default_profile").getD (.str "normal")
  match pn with
  | .str s =>
    match (fieldsOf (p.getObjD "profiles")).find? (fun pr => pr.1 = s) with
    | some pr => .ok pr.2
    | none => .error ("Profile '" ++ s ++ "' not found")
  | other => .error ("Profile '" ++ pyStrOf other ++ "' not found")

/-- `PolicyLoader.get_budget`: `none` models Python `None`. -/
def get_budget (p : Json) (scope key : String) : Option Json :=
  ((p.getObjD "budgets").getObjD scope).get? key

/-- `PolicyLoader.get_security`. -/
def get_security (p : Json) (key : String) : Option Json :=
  (p.getObjD "security").get? key

/-- Python truthiness of an optional value (`None` is falsy). -/
def truthyOpt : Option Json → Bool
  | none => false
  | some j => j.truthy

/-- `x or []` for a value expected to hold a YAML list (the call sites then
use `in`, so a truthy non-list would raise in Python; modelled as `[]`). -/
def listOr : Option Json → List Json
  | some (.arr xs) => xs
  | _ => []

/-- `PolicyLoader.is_src_write_allowed` (lines 163–173): the profile must
permit source writes *and* the link must be whitelisted in
`security.allow_src_writes`. -/
def is_src_write_allowed (p : Json) (linkId : String) (profileName : Option String) :
    Except String Bool :=
  match get_profile p profileName with
  | .error e => .error e
  | .ok profile =>
    if !((profile.get? "allow_src_writes").getD (.bool true)).truthy then
      .ok false
    else
      .ok (decide (Json.str linkId ∈ listOr (get_security p "allow_src_writes")))

/-- `PolicyLoader.get_effective_timeout`: base wall-time budget (defaulting to
60 on a falsy value) times the profile's `timeout_multiplier`. Fractional
(float) multipliers are outside the integer model; none of the claims involve
them. -/
def get_effective_timeout (p : Json) (profileName : Option String) : Except String Int :=
  let base : Int :=
    match get_budget p "per_link" "max_wall_time_sec" with
    | some (.num n) => if n ≠ 0 then n else 60
    | _ => 60
  match get_profile p profileName with
  | .error e => .error e
  | .ok profile =>
    let multiplier : Int :=
      match profile.get? "timeout_multiplier" with
      | some (.num m) => m
      | _ => 1
    .ok (base * multiplier)

/-- `PolicyLoader.get_retry_config`. -/
def get_retry_config (p : Json) : Json := p.getObjD "retry"

/-- The `retry.retryable_errors` list (`.get("retryable_errors", [])`). -/
def retryableErrors (p : Json) : List Json :=
  listOr ((get_retry_config p).get? "retryable_errors")

/-- The `retry.non_retryable_errors` list. -/
def nonRetryableErrors (p : Json) : List Json :=
  listOr ((get_retry_config p).get? "non_retryable_errors")

/-- `PolicyLoader.is_error_retryable` (lines 217–232): explicit non-retryable
wins, then explicit retryable, then the fail-safe `False`. -/
def is_error_retryable (p : Json) (errorType : String) : Bool :=
  if Json.str errorType ∈ nonRetryableErrors p then false
  else if Json.str errorType ∈ retryableErrors p then true
  else false

end PolicyLoader

/-!
## File-system model

Project files are keyed by project-root-relative POSIX paths. Each file
carries its bytes (for digests and size budgets), a modification-time token
(for the snapshot diff; only equality of tokens matters), and its parsed JSON
view (`none` when `json.load` would fail). Per-link artifact manifests
(`.dawn_artifacts.json` / `.shadow_artifacts.json`) are stored in parsed form;
the sandbox-violation scan ignores those files by name, so their bytes never
matter.
-/

/-- Find the value bound to a key in an association list (first match — Python
dicts have unique keys). -/
def alookup {α : Type} (l : List (String × α)) (k : String) : Option α :=
  (l.find? (fun p => p.1 = k)).map (·.2)

/-- Python dict assignment `d[k] = v`: replace in place if present (keeping
insertion order), else append. -/
def aupdate {α : Type} (l : List (String × α)) (k : String) (v : α) : List (String × α) :=
  if (l.find? (fun p => p.1 = k)).isSome then
    l.map (fun p => if p.1 = k then (k, v) else p)
  else l ++ [(k, v)]

/-- One file of the project tree. -/
structure FileData where
  bytes : List Nat
  mtime : Nat
  json : Option Json

/-- The on-disk project tree. -/
structure Disk where
  files : List (String × FileData)
  manifests : List (String × List (String × Json))
  shadowManifests : List (String × List (String × Json))

def Disk.fileExists (d : Disk) (p : String) : Bool := (alookup d.files p).isSome

def Disk.writeFile (d : Disk) (p : String) (fd : FileData) : Disk :=
  { d with files := aupdate d.files p fd }

/-- `_get_fs_snapshot` (orchestrator.py:1036–1047): relative path ↦ mtime for
every file under the project root. -/
def fsSnapshot (d : Disk) : List (String × Nat) :=
  d.files.map (fun p => (p.1, p.2.mtime))

/-- Sum of `stat().st_size` over all files whose path starts with `pre`
(used for both the project-size and the output-size budgets, with `pre := ""`
for the whole tree). -/
def dirBytes (d : Disk) (pre : String) : Nat :=
  (d.files.filter (fun p => pyStartsWith p.1 pre)).foldl (fun acc p => acc + p.2.bytes.length) 0

/-!
## ArtifactStore (`src/dawn/runtime/artifact_store.py`)

Registry records are the Python dicts built by `register`, kept as `Json`
objects. Registered paths are project-root-relative in the model (Python
stores absolute paths; the prefix is common to the whole run).
-/

structure ArtifactStore where
  registry : List (String × Json)
  shadowRegistry : List (String × Json)

def ArtifactStore.empty : ArtifactStore := ⟨[], []⟩

/-- `ArtifactStore.get_digest`: streaming SHA-256 of the file's bytes on disk
(`none` models the `FileNotFoundError` from `open` on a missing file). -/
def ArtifactStore.get_digest (d : Disk) (path : String) : Option String :=
  (alookup d.files path).map (fun fd => sha256hex fd.bytes)

/-- `ArtifactStore.register` (lines 20–36): builds the record, computing the
digest from the file bytes on disk (or `None` when the file is absent). There
is no digest parameter. -/
def ArtifactStore.register (st : ArtifactStore) (d : Disk) (artifactId absPath : String)
    (schema producerLinkId blobUri : Json) (isShadow : Bool) : ArtifactStore :=
  let record : Json := .obj
    [("path", .str absPath),
     ("schema", schema),
     ("producer_link_id", producerLinkId),
     ("blob_uri", blobUri),
     ("digest",
       match alookup d.files absPath with
       | some fd => .str (sha256hex fd.bytes)
       | none => .null),
     ("is_shadow", .bool isShadow)]
  if isShadow then { st with shadowRegistry := aupdate st.shadowRegistry artifactId record }
  else { st with registry := aupdate st.registry artifactId record }

/-- `ArtifactStore.get` (lines 38–42). -/
def ArtifactStore.get (st : ArtifactStore) (artifactId : String)
    (includeShadow : Bool := false) : Option Json :=
  if includeShadow then
    match alookup st.shadowRegistry artifactId with
    | some r => some r
    | none => alookup st.registry artifactId
  else alookup st.registry artifactId

/-- `ArtifactStore.save_manifest` (lines 83–99): persist the registry entries
produced by `linkId` as the link's on-disk manifest. -/
def ArtifactStore.save_manifest (st : ArtifactStore) (d : Disk) (linkId : String)
    (isShadow : Bool) : Disk :=
  let registry := if isShadow then st.shadowRegistry else st.registry
  let linkArtifacts := registry.filter
    (fun p => p.2.get? "producer_link_id" = some (.str linkId))
  if isShadow then { d with shadowManifests := aupdate d.shadowManifests linkId linkArtifacts }
  else { d with manifests := aupdate d.manifests linkId linkArtifacts }

/-- The loop body of `rehydrate_from_link_dir`: re-register every manifest
entry whose file still exists, counting them. A manifest entry without a
`path` key would raise `KeyError` in Python (the `.error` branch). -/
def ArtifactStore.rehydrateLoop (d : Disk) (isShadow : Bool) :
    ArtifactStore → Nat → List (String × Json) → Except String (ArtifactStore × Nat)
  | st, n, [] => .ok (st, n)
  | st, n, (aid, meta) :: rest =>
    match meta.get? "path" with
    | some (.str p) =>
      if d.fileExists p then
        let st' :=
          if isShadow then { st with shadowRegistry := aupdate st.shadowRegistry aid meta }
          else { st with registry := aupdate st.registry aid meta }
        ArtifactStore.rehydrateLoop d isShadow st' (n + 1) rest
      else ArtifactStore.rehydrateLoop d isShadow st n rest
    | _ => .error "manifest entry missing path"

/-- `ArtifactStore.rehydrate_from_link_dir` (lines 101–128). -/
def ArtifactStore.rehydrate_from_link_dir (st : ArtifactStore) (d : Disk) (linkId : String)
    (isShadow : Bool) : Except String (ArtifactStore × Nat) :=
  match alookup (if isShadow then d.shadowManifests else d.manifests) linkId with
  | none => .ok (st, 0)
  | some entries => ArtifactStore.rehydrateLoop d isShadow st 0 entries

/-!
## Sandbox (`src/dawn/runtime/sandbox.py`)

Only the path computation of `write_json` / `write_text` is claim-relevant:
`full_path = self.sandbox_root / path`. For a relative `path` argument,
pathlib's `/` appends the components verbatim — no normalisation and no
containment check — and the OS resolves `.` and `..` when the file is opened.
(An absolute `path` argument would make pathlib discard `sandbox_root`
entirely, escaping even more directly; the model covers relative arguments.)
-/

/-- Components of a POSIX path string (empty components dropped). -/
def splitPathAux : List Char → List Char → List String
  | [], acc => [⟨acc.reverse⟩]
  | c :: rest, acc =>
    if c = '/' then (⟨acc.reverse⟩ : String) :: splitPathAux rest []
    else splitPathAux rest (c :: acc)

def splitPath (p : String) : List String :=
  (splitPathAux p.data []).filter (fun c => c ≠ "")

/-- OS-level resolution of `.` and `..` components when a path is opened. -/
def normalizePath (comps : List String) : List String :=
  comps.foldl
    (fun acc c => if c = "." then acc else if c = ".." then acc.dropLast else acc ++ [c]) []

structure Sandbox where
  projectRoot : List String
  linkId : String
  isShadow : Bool

/-- `self.sandbox_root = project_root / ("shadow_artifacts" | "artifacts") / link_id`. -/
def Sandbox.sandboxRoot (s : Sandbox) : List String :=
  s.projectRoot ++ [if s.isShadow then "shadow_artifacts" else "artifacts", s.linkId]

/-- The file created by `Sandbox.write_json(path, obj)` — the unchecked join
`self.sandbox_root / path`, as resolved by the OS. -/
def Sandbox.write_json_target (s : Sandbox) (path : String) : List String :=
  normalizePath (s.sandboxRoot ++ splitPath path)

/-- The file created by `Sandbox.write_text(path, content)` — same unchecked
join. -/
def Sandbox.write_text_target (s : Sandbox) (path : String) : List String :=
  normalizePath (s.sandboxRoot ++ splitPath path)

/-!
## Ledger (`src/dawn/runtime/ledger.py`)

`log_event` appends one JSON object per line; the event list models the
`events.jsonl` file in order. The wall-clock `timestamp` field is not
modelled (no claim depends on it).
-/

structure LedgerEvent where
  projectId : String
  pipelineId : String
  linkId : String
  runId : String
  stepId : String
  status : String
  inputs : Json
  outputs : Json
  metrics : Json
  errors : Json
  policyVersions : Json
  driftScore : Json
  driftMetadata : Json
deriving DecidableEq

/-- An event with every optional `log_event` argument at its Python default
(empty dict / `None`). -/
def mkEvent (projectId pipelineId linkId runId stepId status : String) : LedgerEvent :=
  ⟨projectId, pipelineId, linkId, runId, stepId, status,
   .obj [], .obj [], .obj [], .obj [], .obj [], .null, .obj []⟩

/-- `Ledger.log_event`: append-only. -/
def Ledger.logEvent (events : List LedgerEvent) (e : LedgerEvent) : List LedgerEvent :=
  events ++ [e]

/-- `Ledger.get_events(link_id)`: replay the file, filtered by link id. -/
def Ledger.getEvents (events : List LedgerEvent) (linkId : Option String) : List LedgerEvent :=
  match linkId with
  | none => events
  | some lid => events.filter (fun e => e.linkId = lid)

/-!
## Orchestrator (`src/dawn/runtime/orchestrator.py`)
-/

/-- `str.take`-style prefix (`s[:n]` in Python), over the character list so
that the kernel can evaluate it. -/
def strTake (s : String) (n : Nat) : String := ⟨s.data.take n⟩

/-- `d[k] = v` on a JSON object (other values left unchanged — Python would
raise on them; the modelled call sites only reach objects). -/
def Json.setKey (j : Json) (k : String) (v : Json) : Json :=
  match j with
  | .obj fs => .obj (aupdate fs k v)
  | other => other

/-- `dict.update(other)` on JSON objects. -/
def Json.updateWith (j : Json) (entries : List (String × Json)) : Json :=
  match j with
  | .obj fs => .obj (entries.foldl (fun acc kv => aupdate acc kv.1 kv.2) fs)
  | other => other

/-- `_evaluate_condition` (lines 279–291). Unrecognised condition strings fall
through every branch and yield `True`. -/
def evaluateCondition (statusIndex : List (String × String))
    (artifactIndex : List (String × Json)) (condition : String) : Bool :=
  if condition = "always" then true
  else if pyStartsWith condition "on_success(" then
    decide (alookup statusIndex (pySliceToLast condition 11) = some "SUCCEEDED")
  else if pyStartsWith condition "on_failure(" then
    decide (alookup statusIndex (pySliceToLast condition 11) = some "FAILED")
  else if pyStartsWith condition "if_artifact_exists(" then
    (alookup artifactIndex (pySliceToLast condition 19)).isSome
  else true

mutual

/-- `_apply_overrides` (lines 293–298): recursive dict merge, an override
value wins on any scalar collision. Python mutates `base` in place; the model
returns the merged value. -/
def applyOverrides : Json → Json → Json
  | base, .obj ovs => applyOverridesFields base ovs
  | base, _ => base

def applyOverridesFields : Json → List (String × Json) → Json
  | base, [] => base
  | base, (k, v) :: rest =>
    let base' :=
      match v with
      | .obj vfs =>
        match base with
        | .obj bfs =>
          match alookup bfs k with
          | some (.obj bsub) => Json.obj (aupdate bfs k (applyOverrides (.obj bsub) (.obj vfs)))
          | _ => Json.obj (aupdate bfs k (.obj vfs))
        | b => b
      | other =>
        match base with
        | .obj bfs => Json.obj (aupdate bfs k other)
        | b => b
    applyOverridesFields base' rest

end

/-- `_normalize_artifact_spec` (lines 549–579): canonicalise a `requires` /
`produces` entry; a bare string is shorthand for the artifact id. -/
def normalizeArtifactSpec : Json → Json
  | .str s => .obj
      [("artifact_id", .str s), ("schema", .null), ("path", .null),
       ("optional", .bool false), ("check", .null), ("from_link", .null)]
  | spec =>
    let a := (spec.get? "artifact").getD .null
    .obj
      [("artifact_id", if a.truthy then a else (spec.get? "artifactId").getD .null),
       ("schema", (spec.get? "schema").getD .null),
       ("path", (spec.get? "path").getD .null),
       ("optional", (spec.get? "optional").getD (.bool false)),
       ("check", (spec.get? "check").getD .null),
       ("from_link", (spec.get? "from_link").getD .null)]

/-- `_calculate_input_signature` (lines 1000–1034): link id, 16-hex config
hash over the sorted-key default-separator dump of the link's `config`, and —
when the registered project bundle parses and carries one — the bundle
SHA-256. The surrounding `try/except` maps every bundle failure to "no bundle
part". -/
def calculateInputSignature (store : ArtifactStore) (d : Disk) (linkId : String)
    (linkConfig : Json) : String :=
  let configHash := strTake (sha256hex (utf8Bytes (linkConfig.getObjD "config").dumpsSortedDefault)) 16
  let bundlePart : List String :=
    match store.get "dawn.project.bundle" with
    | some meta =>
      match meta.get? "path" with
      | some (.str p) =>
        match alookup d.files p with
        | some fd =>
          match fd.json with
          | some bj =>
            let sha := (bj.get? "bundle_sha256").getD .null
            if sha.truthy then ["bundle=" ++ PolicyLoader.pyStrOf sha] else []
          | none => []
        | none => []
      | _ => []
    | none => []
  strTake (sha256hex (utf8Bytes
    (String.intercalate "|" (["link=" ++ linkId, "cfg=" ++ configHash] ++ bundlePart)))) 32

/-- `is_ignored_system_file` plus the `__pycache__`/`.pyc` guard
(lines 710–726): files the orchestrator itself updates during link execution,
exempt from the sandbox-violation scan. -/
def isIgnoredPath (fp : String) : Bool :=
  pyContains fp "__pycache__" || pyEndsWith fp ".pyc" ||
  fp = "artifact_index.json" || fp = "project_index.json" ||
  fp = "pipeline.yaml" || fp = ".lock" ||
  pyStartsWith fp "runs/" || pyStartsWith fp "ledger/" ||
  pyEndsWith fp ".dawn_artifacts.json" || pyEndsWith fp ".shadow_artifacts.json" ||
  pyContains fp "package.metrics"

/-- The allowed-prefix set of `_check_sandbox_violations` (lines 682–706):
the link's own output directory, `ledger`, `runs`, `healing`, `inputs`,
the shadow output directory for shadow runs, and `src` exactly when the
active profile permits source writes *and* the link is whitelisted. -/
def allowedPrefixes (policy : Json) (profile linkId : String) (isShadow : Bool) :
    Except String (List String) :=
  let base := ["artifacts/" ++ linkId, "ledger", "runs", "healing", "inputs"]
  let base := if isShadow then base ++ ["shadow_artifacts/" ++ linkId] else base
  match PolicyLoader.get_profile policy (some profile) with
  | .error e => .error e
  | .ok profileConfig =>
    if ((profileConfig.get? "allow_src_writes").getD (.bool true)).truthy then
      match PolicyLoader.is_src_write_allowed policy linkId (some profile) with
      | .error e => .error e
      | .ok true => .ok (base ++ ["src"])
      | .ok false => .ok base
    else .ok base

/-- The `leaks` list of `_check_sandbox_violations` (lines 723–736): files of
the post-run snapshot, in order, that are not ignored, match no allowed
prefix, and were created or modified relative to the pre-run snapshot. -/
def computeLeaks (prefixes : List String) (pre post : List (String × Nat)) : List String :=
  post.filterMap (fun pm =>
    if isIgnoredPath pm.1 then none
    else if prefixes.any (fun pfx => pyStartsWith pm.1 pfx) then none
    else if alookup pre pm.1 ≠ some pm.2 then some pm.1
    else none)

/-- A raised Python exception as observed by the callers: its message, its
`_logged` attribute (set when the failure was written to the ledger before
being raised), and whether it is a `BudgetTimeoutError`. -/
structure RaisedError where
  msg : String
  logged : Bool
  isTimeout : Bool

def plainError (msg : String) : RaisedError := ⟨msg, false, false⟩

/-- The mutable run context of one pipeline run: the ledger file, the project
tree, the artifact store, and the `project_context` dict entries the claims
touch. -/
structure RunState where
  events : List LedgerEvent
  disk : Disk
  store : ArtifactStore
  artifactIndex : List (String × Json)
  statusIndex : List (String × String)
  linkDurations : List (String × Json)
  budgetViolations : List Json

/-- A discovered link: `{path, metadata}` from `Registry.discover_links`. -/
structure LinkMeta where
  path : String
  metadata : Json

/-- The orchestrator configuration for one run: the loaded policy, the active
profile, the worker identity, and the discovered link registry. -/
structure Orchestrator where
  policy : Json
  profile : String
  workerId : String
  registry : List (String × LinkMeta)

/-- The identifiers and policy stamp shared by every ledger event of one link
execution. -/
structure LinkCtx where
  projectId : String
  pipelineId : String
  linkId : String
  runId : String
  pipelineRunId : String
  workerId : String
  policyVersions : Json

/-- `{"run_id": ..., "worker_id": ...}` as attached to most event metrics. -/
def runWorkerMetrics (c : LinkCtx) : Json :=
  .obj [("run_id", .str c.pipelineRunId), ("worker_id", .str c.workerId)]

/-- `_log_validation_error` (lines 581–589). -/
def logValidationError (c : LinkCtx) (stepId msg : String) : LedgerEvent :=
  { mkEvent c.projectId c.pipelineId c.linkId c.runId stepId "FAILED" with
      errors := .obj
        [("type", .str "VALIDATION_ERROR"), ("message", .str msg),
         ("step_id", .str stepId)],
      policyVersions := c.policyVersions }

/-- The `link_failed` event written by the generic exception handler of
`_execute_link` (lines 536–546) for errors without `_logged`. -/
def linkFailedEvent (c : LinkCtx) (msg : String) : LedgerEvent :=
  { mkEvent c.projectId c.pipelineId c.linkId c.runId "link_failed" "FAILED" with
      errors := .obj
        [("type", .str "RUNTIME_ERROR"), ("message", .str msg), ("step_id", .str "run")],
      metrics := runWorkerMetrics c,
      policyVersions := c.policyVersions }

/-- `policy_versions` as stamped on events (lines 308–313). -/
def policyVersionsFor (o : Orchestrator) (linkConfig : Json) : Json :=
  .obj [("contractVersion", (linkConfig.get? "contractVersion").getD (.str "1.0.0")),
        ("policyVersion", PolicyLoader.versionVal o.policy),
        ("policyDigest", .str (PolicyLoader.computeDigest o.policy)),
        ("profile", .str o.profile)]

/-- `j.get(k, [])` for a list-valued key (a present non-list value would fail
iteration in Python; outside the modelled claims). -/
def jsonListD (j : Json) (k : String) : List Json :=
  match j.get? k with
  | some (.arr xs) => xs
  | _ => []

/-- `[p for p in produces if not p.get("optional", False)]` (line 350): a bare
string entry raises `AttributeError` here. -/
def requiredArtifactsOf : List Json → Except String (List Json)
  | [] => .ok []
  | p :: rest =>
    match p with
    | .obj fs =>
      match requiredArtifactsOf rest with
      | .ok l =>
        .ok (if ((Json.obj fs).get? "optional" |>.getD (.bool false)).truthy then l
             else Json.obj fs :: l)
      | .error e => .error e
    | _ => .error "AttributeError: artifact spec is not a mapping"

/-- `_validate_inputs` (lines 591–625): each non-optional `requires` entry
must resolve to a registered artifact whose file exists. Failures are logged
(step `validate_inputs`) and raised without `_logged`. -/
def validateInputsLoop (c : LinkCtx) (st : ArtifactStore) (d : Disk) :
    List Json → List LedgerEvent × Except RaisedError Unit
  | [] => ([], .ok ())
  | req :: rest =>
    let norm := normalizeArtifactSpec req
    let aid := (norm.get? "artifact_id").getD .null
    if !aid.truthy then validateInputsLoop c st d rest
    else
      let meta? :=
        match aid with
        | .str s => st.get s
        | _ => none
      match meta? with
      | some meta =>
        match meta.get? "path" with
        | some (.str p) =>
          if d.fileExists p then validateInputsLoop c st d rest
          else
            let msg := "Artifact " ++ PolicyLoader.pyStrOf aid ++
              " registered but file missing: " ++ p
            ([logValidationError c "validate_inputs" msg], .error (plainError msg))
        | _ => ([], .error (plainError "KeyError: path"))
      | none =>
        if ((norm.get? "optional").getD .null).truthy then validateInputsLoop c st d rest
        else
          let fromLink := (norm.get? "from_link").getD .null
          let msg := "MISSING_REQUIRED_ARTIFACT: " ++ PolicyLoader.pyStrOf aid ++
            (if fromLink.truthy then " (expected from " ++ PolicyLoader.pyStrOf fromLink ++ ")"
             else "")
          ([logValidationError c "validate_inputs" msg], .error (plainError msg))

/-- What the out-of-scope plugin `run()` callable did: its writes through the
sandbox or the raw file system, and how the call ended. A `timesOut` outcome
models `thread.is_alive()` after `thread.join(timeout)`. -/
inductive PluginOutcome where
  | returns (result : Json)
  | raises (msg : String)
  | timesOut

/-- One externally observable action of the plugin during its run. -/
inductive PluginOp where
  | writeFile (path : String) (fd : FileData)
  | publish (artifact filename : String) (obj : Json) (schema blobUri : Json) (mtime : Nat)
  | publishText (artifact filename : String) (text : String) (schema blobUri : Json) (mtime : Nat)

/-- The project-relative path `self.sandbox_root / filename` of a sandbox
write. -/
def sandboxRel (linkId : String) (isShadow : Bool) (filename : String) : String :=
  String.intercalate "/"
    (normalizePath ((if isShadow then ["shadow_artifacts"] else ["artifacts"]) ++
      [linkId] ++ splitPath filename))

/-- Apply one plugin action: `Sandbox.publish` = `write_json` +
`ArtifactStore.register` (sandbox.py lines 44–79); the digest is computed by
`register` from the bytes just written. -/
def applyPluginOp (linkId : String) (isShadow : Bool) (acc : Disk × ArtifactStore)
    (op : PluginOp) : Disk × ArtifactStore :=
  match op with
  | .writeFile p fd => (acc.1.writeFile p fd, acc.2)
  | .publish artifact filename obj schema blobUri mtime =>
    let target := sandboxRel linkId isShadow filename
    let d' := acc.1.writeFile target
      ⟨utf8Bytes (Json.dumpsWith true ", " ": " obj), mtime, some obj⟩
    (d', acc.2.register d' artifact target schema (.str linkId) blobUri isShadow)
  | .publishText artifact filename text schema blobUri mtime =>
    let target := sandboxRel linkId isShadow filename
    let d' := acc.1.writeFile target ⟨utf8Bytes text, mtime, none⟩
    (d', acc.2.register d' artifact target schema (.str linkId) blobUri isShadow)

def applyPluginOps (linkId : String) (isShadow : Bool)
    (acc : Disk × ArtifactStore) (ops : List PluginOp) : Disk × ArtifactStore :=
  ops.foldl (applyPluginOp linkId isShadow) acc

/-- The external inputs consumed by one `_execute_link` invocation: the fresh
UUID, the plugin's behaviour, wall-clock readings, and the verdicts of the
floating-point / external-library computations (coherence scoring,
`jsonschema` validation) that the integer model cannot evaluate itself. -/
structure LinkWorld where
  runId : String
  moduleLoadError : Option String
  pluginOps : List PluginOp
  pluginOutcome : PluginOutcome
  createdAt : String
  schemaVerdict : String → Json → Option Bool
  coherenceDrift : Bool
  driftScore : Json
  driftEvidence : String
  reflectionRunId : String
  reflectionMtime : Nat
  parityTimestamp : Json
  maturityMtime : Nat
  durationMs : Int

def LinkWorld.default : LinkWorld :=
  ⟨"", none, [], .returns .null, "", fun _ _ => none, false, .null, "", "", 0, .null, 0, 0⟩

/-- `_check_sandbox_violations` (lines 675–753): compute the leaks; one or
more leaks means a `POLICY_VIOLATION` ledger event (carrying the full
`leaked_paths` list) is written and then the error is raised with `_logged`
set. -/
def checkSandboxViolationsStage (c : LinkCtx) (policy : Json) (profile : String)
    (isShadow : Bool) (pre post : List (String × Nat)) :
    List LedgerEvent × Except RaisedError Unit :=
  match allowedPrefixes policy profile c.linkId isShadow with
  | .error e => ([], .error (plainError e))
  | .ok prefixes =>
    let leaks := computeLeaks prefixes pre post
    if leaks.isEmpty then ([], .ok ())
    else
      let msg := "POLICY_VIOLATION: Link " ++ c.linkId ++
        " modified files outside allowed sandbox roots"
      ([{ mkEvent c.projectId c.pipelineId c.linkId c.runId "sandbox_check" "FAILED" with
            errors := .obj
              [("type", .str "POLICY_VIOLATION"), ("message", .str msg),
               ("leaked_paths", .arr (leaks.map .str))],
            metrics := runWorkerMetrics c,
            policyVersions := c.policyVersions }],
       .error ⟨msg, true, false⟩)

/-- `_check_output_size_budget` (lines 755–804): sum the bytes under the
link's output directory; exceeding `per_link.max_output_bytes` logs a
`BUDGET_OUTPUT_LIMIT` event, records a budget violation, and raises with
`_logged` set. A falsy budget disables the check. -/
def checkOutputSizeBudgetStage (c : LinkCtx) (policy : Json) (d : Disk) :
    List LedgerEvent × List Json × Except RaisedError Unit :=
  let mo := PolicyLoader.get_budget policy "per_link" "max_output_bytes"
  if !PolicyLoader.truthyOpt mo then ([], [], .ok ())
  else
    match mo with
    | some (.num m) =>
      let total := dirBytes d ("artifacts/" ++ c.linkId ++ "/")
      if (total : Int) > m then
        let msg := "BUDGET_OUTPUT_LIMIT: Link " ++ c.linkId ++ " output size " ++
          natRepr total ++ " bytes exceeds limit of " ++ intRepr m ++ " bytes"
        ([{ mkEvent c.projectId c.pipelineId c.linkId c.runId "budget_check" "FAILED" with
              errors := .obj
                [("type", .str "BUDGET_OUTPUT_LIMIT"), ("message", .str msg),
                 ("measured_bytes", .num total), ("limit_bytes", .num m)],
              metrics := runWorkerMetrics c,
              policyVersions := c.policyVersions }],
         [.obj [("link_id", .str c.linkId), ("type", .str "BUDGET_OUTPUT_LIMIT"),
                ("measured_bytes", .num total), ("limit_bytes", .num m)]],
         .error ⟨msg, true, false⟩)
      else ([], [], .ok ())
    | _ => ([], [], .ok ())

/-- The `SCHEMA_INVALID` events of `_validate_outputs`. -/
def schemaInvalidEvent (c : LinkCtx) (msg : String) (schemaRef : Option String) : LedgerEvent :=
  { mkEvent c.projectId c.pipelineId c.linkId c.runId "validate_outputs" "FAILED" with
      errors := .obj
        ([("type", .str "SCHEMA_INVALID"), ("message", .str msg),
          ("step_id", .str "validate_outputs")] ++
         (match schemaRef with
          | some r => [("schema_ref", .str r)]
          | none => [])),
      policyVersions := c.policyVersions }

/-- The legacy-path artifact-index entry built at lines 923–930. -/
def legacyIndexEntry (c : LinkCtx) (d : Disk) (filePath createdAt : String) : Json :=
  .obj [("path", .str filePath),
        ("digest",
          match ArtifactStore.get_digest d filePath with
          | some h => .str h
          | none => .null),
        ("link_id", .str c.linkId),
        ("run_id", .str c.pipelineRunId),
        ("created_at", .str createdAt)]

/-- The state threaded through the `_validate_outputs` loop. -/
structure OutState where
  events : List LedgerEvent
  store : ArtifactStore
  index : List (String × Json)
  outputs : List (String × Json)

/-- `_validate_outputs` (lines 806–934). Registered artifacts must exist on
disk; unregistered ones fall back to the legacy path declaration, getting
auto-registered, JSON-parsed and (when a named schema is registered)
structurally validated, then digested into the artifact index. Missing
non-optional outputs are `PRODUCED_ARTIFACT_MISSING`. The external
`jsonschema.validate` verdict is `sv ref data` (`none` = no schema registered
under that name, so validation is skipped). -/
def validateOutputsLoop (c : LinkCtx) (createdAt : String)
    (sv : String → Json → Option Bool) (d : Disk) :
    OutState → List Json → OutState × Except RaisedError Unit
  | os, [] => (os, .ok ())
  | os, prod :: rest =>
    let norm := normalizeArtifactSpec prod
    let aid := (norm.get? "artifact_id").getD .null
    if !aid.truthy then validateOutputsLoop c createdAt sv d os rest
    else
      match aid with
      | .str s =>
        (match os.store.get s with
         | some meta =>
           match meta.get? "path" with
           | some (.str p) =>
             if d.fileExists p then
               validateOutputsLoop c createdAt sv d
                 { os with outputs := aupdate os.outputs s meta } rest
             else
               let msg := "Artifact " ++ s ++ " registered but file missing: " ++ p
               ({ os with events := os.events ++ [logValidationError c "validate_outputs" msg] },
                .error (plainError msg))
           | _ => (os, .error (plainError "KeyError: path"))
         | none =>
           let pathV := (norm.get? "path").getD .null
           if pathV.truthy then
             let pathStr := PolicyLoader.pyStrOf pathV
             let filePath := "artifacts/" ++ c.linkId ++ "/" ++ pathStr
             if d.fileExists filePath then
               let store' := os.store.register d s filePath ((norm.get? "schema").getD .null)
                 (.str c.linkId) .null false
               let metaN := (store'.get s).getD .null
               let os := { os with store := store', outputs := aupdate os.outputs s metaN }
               let schemaRaw := (prod.get? "schema").getD (.obj [])
               let schema :=
                 match schemaRaw with
                 | .str t => Json.obj [("type", .str t)]
                 | x => x
               let finish (os : OutState) : OutState × Except RaisedError Unit :=
                 let entry := legacyIndexEntry c d filePath createdAt
                 validateOutputsLoop c createdAt sv d
                   { os with index := aupdate os.index s entry,
                             outputs := aupdate os.outputs s entry } rest
               if schema.get? "type" = some (.str "json") then
                 match (alookup d.files filePath).bind (·.json) with
                 | none =>
                   let msg := "SCHEMA_INVALID: " ++ s ++ " is not valid JSON."
                   ({ os with events := os.events ++ [schemaInvalidEvent c msg none] },
                    .error (plainError msg))
                 | some data =>
                   let refV := (schema.get? "ref").getD .null
                   if refV.truthy then
                     match refV with
                     | .str ref =>
                       (match sv ref data with
                        | some false =>
                          let msg := "SCHEMA_INVALID: " ++ s ++
                            " failed validation against '" ++ ref ++ "'"
                          ({ os with events := os.events ++ [schemaInvalidEvent c msg (some ref)] },
                           .error (plainError msg))
                        | _ => finish os)
                     | _ => finish os
                   else finish os
               else finish os
             else
               if ((norm.get? "optional").getD .null).truthy then
                 validateOutputsLoop c createdAt sv d os rest
               else
                 let msg := "PRODUCED_ARTIFACT_MISSING: " ++ s ++ " at " ++
                   PolicyLoader.pyStrOf pathV
                 ({ os with events := os.events ++ [logValidationError c "validate_outputs" msg] },
                  .error (plainError msg))
           else
             if ((norm.get? "optional").getD .null).truthy then
               validateOutputsLoop c createdAt sv d os rest
             else
               let msg := "PRODUCED_ARTIFACT_MISSING: " ++ s
               ({ os with events := os.events ++ [logValidationError c "validate_outputs" msg] },
                .error (plainError msg)))
      | _ =>
        -- A truthy non-string artifact id would be a non-string dict key in
        -- Python; real contracts never produce one.
        (os, .error (plainError "non-string artifact id"))

/-- The `current_ir` search of `_check_coherence` (lines 1068–1077): first
output tagged `dawn.project.ir` (or whose id contains `"ir"`) whose file
parses as JSON. -/
def findCurrentIr (d : Disk) : List (String × Json) → Option Json
  | [] => none
  | (aid, meta) :: rest =>
    if meta.get? "schema" = some (.str "dawn.project.ir") || pyContains aid "ir" then
      match meta.get? "path" with
      | some (.str p) =>
        match (alookup d.files p).bind (·.json) with
        | some ir => some ir
        | none => findCurrentIr d rest
      | _ => findCurrentIr d rest
    else findCurrentIr d rest

/-- `_check_coherence` (lines 1049–1112) plus `_trigger_reflection`
(lines 1203–1261). The provider's floating-point score cannot be computed in
the integer model: `w.coherenceDrift` is the externally supplied verdict of
`score < threshold`, and `w.driftScore` the score value recorded in events. -/
def checkCoherenceStage (c : LinkCtx) (w : LinkWorld) (coherencePolicy : Json)
    (outputs : List (String × Json)) (rs : RunState) : RunState × Except RaisedError Unit :=
  let thresholdMeta := (coherencePolicy.get? "threshold").getD .null
  match rs.store.get "dawn.project.bundle" with
  | none => (rs, .ok ())
  | some meta =>
    match meta.get? "path" with
    | some (.str p) =>
      match (alookup rs.disk.files p).bind (·.json) with
      | none => (rs, .ok ())
      | some _intentIr =>
        match findCurrentIr rs.disk outputs with
        | none => (rs, .ok ())
        | some _currentIr =>
          if !w.coherenceDrift then (rs, .ok ())
          else
            let onDrift :=
              match coherencePolicy.get? "on_drift" with
              | some v => v
              | none => .str "pause_and_reflect"
            let driftEv :=
              { mkEvent c.projectId c.pipelineId c.linkId c.pipelineRunId
                  "coherence_check" "DRIFT_DETECTED" with
                  metrics := .obj [("drift_score", w.driftScore)],
                  driftScore := w.driftScore,
                  driftMetadata := .obj
                    [("evidence", .str w.driftEvidence), ("threshold", thresholdMeta),
                     ("on_drift", onDrift)],
                  policyVersions := .obj [("coherence_threshold", thresholdMeta)] }
            let rs := { rs with events := rs.events ++ [driftEv] }
            if onDrift = .str "fail" then
              (rs, .error (plainError
                ("SEMANTIC_DRIFT: coherence score below threshold. " ++ w.driftEvidence)))
            else if onDrift = .str "pause_and_reflect" then
              let startEv :=
                { mkEvent c.projectId c.pipelineId "dawn.builtin.reflect" w.reflectionRunId
                    "reflection_start" "STARTED" with
                    metrics := .obj
                      [("source_link", .str c.linkId), ("source_score", w.driftScore)] }
              let summary := Json.obj
                [("status", .str "RECOVERED"), ("original_link", .str c.linkId),
                 ("score", w.driftScore), ("evidence", .str w.driftEvidence),
                 ("action", .str "Cleaned up context and re-seeded pipeline.")]
              let rpath := "artifacts/dawn.builtin.reflect/reflection_summary.json"
              let disk' := rs.disk.writeFile rpath
                ⟨utf8Bytes summary.dumpsPlain, w.reflectionMtime, some summary⟩
              let store' := rs.store.register disk' "dawn.reflection.summary" rpath
                (.str "json") (.str "dawn.builtin.reflect") .null false
              let doneEv :=
                { mkEvent c.projectId c.pipelineId "dawn.builtin.reflect" c.pipelineRunId
                    "reflection_complete" "SUCCEEDED" with
                    outputs := .obj [("dawn.reflection.summary", .str rpath)] }
              ({ rs with events := rs.events ++ [startEv, doneEv],
                         disk := disk', store := store' }, .ok ())
            else (rs, .ok ())
    | _ => (rs, .ok ())

/-- The most recent `link_complete` ledger event of the link (lines 327–332). -/
def lastLinkComplete (events : List LedgerEvent) (linkId : String) : Option LedgerEvent :=
  ((Ledger.getEvents events (some linkId)).reverse).find? (fun ev => ev.stepId = "link_complete")

/-- The ALREADY_DONE skip decision (lines 319–341): not `alwaysRun`, and the
link's most recent `link_complete` event is `SUCCEEDED` with a recorded
`input_signature` equal to the one just computed. -/
def skipDecision (events : List LedgerEvent) (linkId : String) (linkConfig : Json)
    (inputSignature : String) : Bool :=
  let alwaysRun :=
    ((((linkConfig.getObjD "spec").getObjD "runtime").get? "alwaysRun").getD (.bool false)).truthy
  !alwaysRun &&
    (match lastLinkComplete events linkId with
     | some ev =>
       decide (ev.status = "SUCCEEDED") &&
       decide (ev.metrics.get? "input_signature" = some (.str inputSignature))
     | none => false)

/-- `link_config.get("max_wall_time_sec") or get_effective_timeout(profile)`
(line 416). -/
def effectiveTimeoutFor (o : Orchestrator) (linkConfig : Json) : Except String Int :=
  match (linkConfig.get? "max_wall_time_sec").getD .null with
  | .num n =>
    if n ≠ 0 then .ok n else PolicyLoader.get_effective_timeout o.policy (some o.profile)
  | v =>
    if v.truthy then .error "TypeError: timeout must be a number"
    else PolicyLoader.get_effective_timeout o.policy (some o.profile)

/-- The single ledger event of the ALREADY_DONE skip path (lines 366–371). -/
def skipEventOf (o : Orchestrator) (projectId pipelineId linkId runId : String)
    (linkConfig : Json) (count : Nat) : LedgerEvent :=
  { mkEvent projectId pipelineId linkId runId "skip" "SUCCEEDED" with
      metrics := .obj
        [("reason", .str "ALREADY_DONE"), ("rehydrated_artifacts", .num count)],
      policyVersions := policyVersionsFor o linkConfig }

/-- The `try` body of `_execute_link` (lines 396–518): validate inputs, load
the module, snapshot, run the plugin under the timeout, scan for sandbox
violations, check the output budget, interpret the plugin result, validate
outputs, persist the manifest, merge the artifact index, run the coherence
check, and log the `SUCCEEDED` completion event. -/
def executeLinkTry (o : Orchestrator) (c : LinkCtx) (linkConfig : Json) (isShadow : Bool)
    (w : LinkWorld) (inputSignature : String) (rs : RunState) :
    RunState × Except RaisedError Unit :=
  let (evs, r) := validateInputsLoop c rs.store rs.disk
    (jsonListD (linkConfig.getObjD "spec") "requires")
  let rs := { rs with events := rs.events ++ evs }
  match r with
  | .error e => (rs, .error e)
  | .ok _ =>
  match w.moduleLoadError with
  | some m => (rs, .error (plainError m))
  | none =>
  let pre := fsSnapshot rs.disk
  match effectiveTimeoutFor o linkConfig with
  | .error e => (rs, .error (plainError e))
  | .ok timeoutSec =>
  let (disk', store') := applyPluginOps c.linkId isShadow (rs.disk, rs.store) w.pluginOps
  let rs := { rs with disk := disk', store := store' }
  match w.pluginOutcome with
  | .timesOut =>
    let msg := "BUDGET_TIMEOUT: Link " ++ c.linkId ++ " exceeded wall time limit of " ++
      intRepr timeoutSec ++ "s"
    let ev :=
      { mkEvent c.projectId c.pipelineId c.linkId c.runId "link_complete" "FAILED" with
          errors := .obj
            [("type", .str "BUDGET_TIMEOUT"), ("message", .str msg),
             ("timeout_sec", .num timeoutSec)],
          metrics := runWorkerMetrics c,
          policyVersions := c.policyVersions }
    ({ rs with events := rs.events ++ [ev] }, .error ⟨msg, true, true⟩)
  | .raises m => (rs, .error (plainError m))
  | .returns r0 =>
  let res := if r0.truthy then r0 else Json.obj [("status", .str "SUCCEEDED")]
  let post := fsSnapshot rs.disk
  let (evs2, r2) := checkSandboxViolationsStage c o.policy o.profile isShadow pre post
  let rs := { rs with events := rs.events ++ evs2 }
  match r2 with
  | .error e => (rs, .error e)
  | .ok _ =>
  let (evs3, viols3, r3) := checkOutputSizeBudgetStage c o.policy rs.disk
  let rs := { rs with events := rs.events ++ evs3,
                      budgetViolations := rs.budgetViolations ++ viols3 }
  match r3 with
  | .error e => (rs, .error e)
  | .ok _ =>
  if (res.get? "status").getD (.str "SUCCEEDED") = .str "FAILED" then
    let fi0 := res.getObjD "errors"
    let fi1 := if fi0.hasKey "type" then fi0 else fi0.setKey "type" (.str "RUNTIME_ERROR")
    let fi := if fi1.hasKey "step_id" then fi1 else fi1.setKey "step_id" (.str "run")
    let msgPart :=
      match fi.get? "message" with
      | some v => PolicyLoader.pyStrOf v
      | none => "No error message"
    let ev :=
      { mkEvent c.projectId c.pipelineId c.linkId c.runId "link_complete" "FAILED" with
          errors := fi,
          metrics := runWorkerMetrics c,
          policyVersions := c.policyVersions }
    ({ rs with events := rs.events ++ [ev] },
     .error (plainError ("Link " ++ c.linkId ++ " reported failure: " ++ msgPart)))
  else
  let os0 : OutState := ⟨[], rs.store, rs.artifactIndex, []⟩
  let (os', r4) := validateOutputsLoop c w.createdAt w.schemaVerdict rs.disk os0
    (jsonListD (linkConfig.getObjD "spec") "produces")
  let rs := { rs with events := rs.events ++ os'.events, store := os'.store,
                      artifactIndex := os'.index }
  match r4 with
  | .error e => (rs, .error e)
  | .ok _ =>
  let rs := { rs with disk := rs.store.save_manifest rs.disk c.linkId isShadow }
  let rs :=
    if !isShadow then
      { rs with artifactIndex :=
          os'.outputs.foldl (fun acc kv => aupdate acc kv.1 kv.2) rs.artifactIndex }
    else rs
  let coherencePolicy := ((linkConfig.getObjD "spec").get? "coherence_policy").getD .null
  let (rs, r5) :=
    if coherencePolicy.truthy then checkCoherenceStage c w coherencePolicy os'.outputs rs
    else (rs, .ok ())
  match r5 with
  | .error e => (rs, .error e)
  | .ok _ =>
  let metricsF := ((((res.getObjD "metrics").setKey "input_signature" (.str inputSignature)
      ).setKey "run_id" (.str c.pipelineRunId)
      ).setKey "worker_id" (.str c.workerId)
      ).updateWith [("cpu_sec", .str "unavailable"), ("mem_mb_peak", .str "unavailable")]
  let ev :=
    { mkEvent c.projectId c.pipelineId c.linkId c.runId "link_complete" "SUCCEEDED" with
        outputs := .obj os'.outputs,
        metrics := metricsF,
        errors := res.getObjD "errors",
        policyVersions := c.policyVersions }
  let rs := { rs with events := rs.events ++ [ev] }
  let rs :=
    match alookup rs.linkDurations c.linkId with
    | some dv =>
      { rs with linkDurations := aupdate rs.linkDurations c.linkId (dv.setKey "metrics" metricsF) }
    | none => rs
  (rs, .ok ())

/-- `_execute_link` (lines 303–547): the idempotency-skip decision and
rehydration, the `STARTED` event, the `try` body, and the exception handlers
(budget-violation bookkeeping for timeouts; a `link_failed` `RUNTIME_ERROR`
event for errors that were not already logged). -/
def executeLink (o : Orchestrator) (projectId pipelineId pipelineRunId : String)
    (linkId : String) (linkConfig : Json) (isShadow : Bool) (w : LinkWorld)
    (rs : RunState) : RunState × Except RaisedError Unit :=
  let pv := policyVersionsFor o linkConfig
  let c : LinkCtx := ⟨projectId, pipelineId, linkId, w.runId, pipelineRunId, o.workerId, pv⟩
  let inputSignature := calculateInputSignature rs.store rs.disk linkId linkConfig
  if skipDecision rs.events linkId linkConfig inputSignature then
    match rs.store.rehydrate_from_link_dir rs.disk linkId isShadow with
    | .error e => (rs, .error (plainError e))
    | .ok (store', count) =>
      let rs := { rs with store := store' }
      match requiredArtifactsOf (jsonListD (linkConfig.getObjD "spec") "produces") with
      | .error e => (rs, .error (plainError e))
      | .ok required =>
        if !required.isEmpty && count = 0 then
          let msg := "Link " ++ linkId ++ " marked ALREADY_DONE but no artifacts rehydrated."
          let ev :=
            { mkEvent projectId pipelineId linkId w.runId "validate_skip" "FAILED" with
                errors := .obj
                  [("type", .str "REHYDRATION_FAILED"), ("message", .str msg)],
                policyVersions := pv }
          ({ rs with events := rs.events ++ [ev] }, .error (plainError msg))
        else
          ({ rs with
              events := rs.events ++ [skipEventOf o projectId pipelineId linkId w.runId
                linkConfig count],
              statusIndex := aupdate rs.statusIndex linkId "SKIPPED" }, .ok ())
  else
    let startEv :=
      { mkEvent projectId pipelineId linkId w.runId "link_start" "STARTED" with
          metrics := .obj
            [("input_signature", .str inputSignature),
             ("run_id", .str pipelineRunId), ("worker_id", .str o.workerId)],
          policyVersions := pv }
    let rs := { rs with events := rs.events ++ [startEv] }
    let (rs, result) := executeLinkTry o c linkConfig isShadow w inputSignature rs
    match result with
    | .ok _ => (rs, .ok ())
    | .error e =>
      let rs :=
        if e.isTimeout then
          { rs with budgetViolations := rs.budgetViolations ++
              [.obj [("link_id", .str linkId), ("type", .str "BUDGET_TIMEOUT"),
                     ("message", .str e.msg)]] }
        else rs
      let rs := if !e.logged then { rs with events := rs.events ++ [linkFailedEvent c e.msg] }
                else rs
      (rs, .error e)

/-- `{n["name"] for n in nodes}` — `KeyError` on a node without a name. -/
def nodeNames : List Json → Except String (List Json)
  | [] => .ok []
  | n :: rest =>
    match n.get? "name" with
    | some v =>
      match nodeNames rest with
      | .ok l => .ok (v :: l)
      | .error e => .error e
    | none => .error "KeyError: name"

/-- `_run_parity_comparison` (lines 1114–1187). `variance_score == 0` holds
exactly when the stable and shadow node-name sets coincide; the non-zero
float variance values recorded in the history are outside the integer model
(stored as `null`; nothing reads them back). -/
def runParityComparison (o : Orchestrator) (projectId pipelineId pipelineRunId : String)
    (stableLinkId shadowLinkId : String) (w : LinkWorld) (rs : RunState) :
    RunState × Except String Unit :=
  match rs.store.get "dawn.project.ir" false, rs.store.get "dawn.project.ir" true with
  | some stableMeta, some shadowMeta =>
    let stableData? :=
      match stableMeta.get? "path" with
      | some (.str p) => (alookup rs.disk.files p).bind (·.json)
      | _ => none
    let shadowData? :=
      match shadowMeta.get? "path" with
      | some (.str p) => (alookup rs.disk.files p).bind (·.json)
      | _ => none
    match stableData?, shadowData? with
    | some sd, some hd =>
      (match nodeNames (jsonListD sd "nodes"), nodeNames (jsonListD hd "nodes") with
       | .ok sn, .ok hn =>
         let parity := sn.all (fun x => decide (x ∈ hn)) && hn.all (fun x => decide (x ∈ sn))
         let mpath := "shadow_artifacts/" ++ shadowLinkId ++ "/maturity_record.json"
         let maturityR : Except String Json :=
           match alookup rs.disk.files mpath with
           | some fd =>
             match fd.json with
             | some m => .ok m
             | none => .error "maturity_record.json failed to load"
           | none => .ok (Json.obj
               [("consecutive_wins", .num 0), ("consecutive_parity", .num 0),
                ("history", .arr [])])
         match maturityR with
         | .error e => (rs, .error e)
         | .ok m0 =>
           let cpR : Except String Int :=
             match m0.get? "consecutive_parity" with
             | some (.num n) => .ok n
             | some _ => .error "TypeError: consecutive_parity"
             | none => .error "KeyError: consecutive_parity"
           match cpR with
           | .error e => (rs, .error e)
           | .ok cp0 =>
             let cp := if parity then cp0 + 1 else 0
             let m1 := m0.setKey "consecutive_parity" (.num cp)
             let statusStr := if parity then "PARITY" else "DIVERGED"
             match m1.get? "history" with
             | some (.arr h) =>
               let entry := Json.obj
                 [("timestamp", w.parityTimestamp),
                  ("variance", if parity then Json.num 0 else Json.null),
                  ("status", .str statusStr)]
               let m2 := m1.setKey "history" (.arr (h ++ [entry]))
               let disk' := rs.disk.writeFile mpath
                 ⟨utf8Bytes m2.dumpsPlain, w.maturityMtime, some m2⟩
               let rs := { rs with disk := disk' }
               let windowR : Except String Int :=
                 match (match o.policy.get? "promotion_policy" with
                        | some v => v
                        | none => Json.obj [("maturity_window", .num 3)]).get? "maturity_window" with
                 | some (.num n) => .ok n
                 | some _ => .error "TypeError: maturity_window"
                 | none => .ok 3
               match windowR with
               | .error e => (rs, .error e)
               | .ok window =>
                 if cp ≥ window then
                   let ev1 :=
                     { mkEvent projectId pipelineId shadowLinkId pipelineRunId
                         "shadow_maturity_reached" "READY_FOR_PROMOTION" with
                         metrics := .obj [("consecutive_parity", .num cp)],
                         driftMetadata := .obj
                           [("stable_link", .str stableLinkId),
                            ("maturity_window", .num window)] }
                   let ev2 :=
                     { mkEvent projectId pipelineId "hitl.gate" pipelineRunId
                         "promotion_approval" "PENDING" with
                         metrics := .obj
                           [("stable", .str stableLinkId), ("shadow", .str shadowLinkId)] }
                   ({ rs with events := rs.events ++ [ev1, ev2] }, .ok ())
                 else (rs, .ok ())
             | some _ => (rs, .error "AttributeError: history")
             | none => (rs, .error "KeyError: history")
       | .error e, _ => (rs, .error e)
       | _, .error e => (rs, .error e))
    | _, _ => (rs, .ok ())
  | _, _ => (rs, .ok ())

/-- `_check_project_size_budget` (lines 239–277): a falsy
`per_project.max_project_bytes` disables the check; otherwise the total file
bytes under the project root are compared against it, and on excess the
`BUDGET_PROJECT_LIMIT` event plus the abort message are produced. -/
def checkProjectSizeBudget (o : Orchestrator) (d : Disk)
    (projectId pipelineId runId : String) : Option (LedgerEvent × String) :=
  let mb := PolicyLoader.get_budget o.policy "per_project" "max_project_bytes"
  if !PolicyLoader.truthyOpt mb then none
  else
    match mb with
    | some (.num m) =>
      let total := dirBytes d ""
      if (total : Int) > m then
        let msg := "BUDGET_PROJECT_LIMIT: Project size " ++ natRepr total ++
          " bytes exceeds limit of " ++ intRepr m ++ " bytes"
        some ({ mkEvent projectId pipelineId "__preflight__" runId "budget_check" "FAILED" with
                  errors := .obj
                    [("type", .str "BUDGET_PROJECT_LIMIT"), ("message", .str msg),
                     ("measured_bytes", .num total), ("limit_bytes", .num m)],
                  metrics := .obj
                    [("run_id", .str runId), ("worker_id", .str o.workerId)] }, msg)
      else none
    | _ => none

/-- The run-level external inputs: the run UUID, per-link worlds (consumed in
invocation order, stable and shadow alike), wall-clock readings, the bytes of
the pipeline file outside the project tree, and mtime tokens for the files
the orchestrator writes at run end. -/
structure RunWorld where
  pipelineRunId : String
  linkWorlds : List LinkWorld
  runStarted : Json
  runEnded : Json
  pipelineDurationMs : Int
  pipelineFileBytes : Option (List Nat)
  lockWaitMs : Int
  summaryMtime : Nat
  indexMtime : Nat
  yamlMtime : Nat

def popWorld : List LinkWorld → LinkWorld × List LinkWorld
  | [] => (LinkWorld.default, [])
  | w :: ws => (w, ws)

/-- `_generate_run_summary` (lines 936–998): build the summary, write it
under `artifacts/package.metrics/`, digest the file just written, and insert
the `dawn.metrics.run_summary` entry into the in-memory artifact index (after
`artifact_index.json` has already been persisted). -/
def generateRunSummary (o : Orchestrator) (projectId pipelineIdStr pipelinePath : String)
    (rw : RunWorld) (failed : Bool) (failureLink failureError : Option String)
    (rs : RunState) : RunState :=
  let pipelineDigest :=
    match rw.pipelineFileBytes with
    | some bs => sha256hex bs
    | none => "unknown"
  let summary := Json.obj
    [("run_id", .str rw.pipelineRunId),
     ("worker_id", .str o.workerId),
     ("project_id", .str projectId),
     ("pipeline_id", .str pipelineIdStr),
     ("pipeline_path", .str pipelinePath),
     ("pipeline_digest", .str pipelineDigest),
     ("profile", .str o.profile),
     ("policy", .obj
       [("version", PolicyLoader.versionVal o.policy),
        ("digest", .str (PolicyLoader.computeDigest o.policy))]),
     ("timing", .obj
       [("started_at", rw.runStarted), ("ended_at", rw.runEnded),
        ("duration_ms", .num rw.pipelineDurationMs),
        ("lock_wait_time_ms", .num rw.lockWaitMs)]),
     ("links", .obj rs.linkDurations),
     ("status", .str (if failed then "FAILED" else "SUCCEEDED")),
     ("failure",
       if failed then
         .obj [("link_id", match failureLink with | some l => .str l | none => .null),
               ("error", match failureError with | some e => .str e | none => .null)]
       else .null),
     ("budget_violations", .arr rs.budgetViolations),
     ("budgets_enforced", .obj
       [("per_link", .obj
          [("max_wall_time_sec",
            (PolicyLoader.get_budget o.policy "per_link" "max_wall_time_sec").getD .null),
           ("max_output_bytes",
            (PolicyLoader.get_budget o.policy "per_link" "max_output_bytes").getD .null)]),
        ("per_project", .obj
          [("max_project_bytes",
            (PolicyLoader.get_budget o.policy "per_project" "max_project_bytes").getD .null)])])]
  let spath := "artifacts/package.metrics/run_summary.json"
  let disk' := rs.disk.writeFile spath ⟨utf8Bytes summary.dumpsPlain, rw.summaryMtime, some summary⟩
  let digestJ :=
    match ArtifactStore.get_digest disk' spath with
    | some h => Json.str h
    | none => Json.null
  { rs with disk := disk',
            artifactIndex := aupdate rs.artifactIndex "dawn.metrics.run_summary"
              (.obj [("path", .str spath), ("digest", digestJ),
                     ("link_id", .str "package.metrics")]) }

/-- `spec.when.condition` extraction (line 164), raising on a non-mapping
`spec`/`when` or a non-string condition exactly where Python would. -/
def whenConditionOf (lc : Json) : Except String String :=
  match lc.get? "spec" with
  | none => .ok "always"
  | some (.obj sfs) =>
    match alookup sfs "when" with
    | none => .ok "always"
    | some (.obj wfs) =>
      match alookup wfs "condition" with
      | none => .ok "always"
      | some (.str s) => .ok s
      | some _ => .error "AttributeError: condition is not a string"
    | some _ => .error "AttributeError: when is not a mapping"
  | some _ => .error "AttributeError: spec is not a mapping"

/-- The per-entry config assembly (lines 150–161): pipeline-level `overrides`
for the link id, then the entry's own `config` and `overrides` blocks, all
deep-merged onto the link's declared metadata. (Python mutates the registry's
metadata dict in place; the model rebuilds it per iteration, which coincides
for single runs.) -/
def buildLinkConfig (baseMeta : Json) (overridesTop : Json) (linkInfo : Json)
    (linkIdStr : String) : Except String Json :=
  let step1 : Except String Json :=
    match overridesTop.get? linkIdStr with
    | none => .ok baseMeta
    | some (.obj ofs) => .ok (applyOverrides baseMeta (.obj ofs))
    | some _ => .error "AttributeError: override is not a mapping"
  match step1 with
  | .error e => .error e
  | .ok lc1 =>
    match linkInfo with
    | .obj ifs =>
      let step2 : Except String Json :=
        match alookup ifs "config" with
        | none => .ok lc1
        | some (.obj cfs) =>
          .ok (lc1.setKey "config" (applyOverrides (lc1.getObjD "config") (.obj cfs)))
        | some _ => .error "AttributeError: config override is not a mapping"
      match step2 with
      | .error e => .error e
      | .ok lc2 =>
        match alookup ifs "overrides" with
        | none => .ok lc2
        | some (.obj ofs2) => .ok (applyOverrides lc2 (.obj ofs2))
        | some _ => .error "AttributeError: overrides is not a mapping"
    | _ => .ok lc1

/-- `link_info if isinstance(link_info, str) else link_info.get("id")`
(line 143). -/
def entryIdOf : Json → Except String Json
  | .str s => .ok (.str s)
  | .obj fs => .ok ((alookup fs "id").getD .null)
  | _ => .error "AttributeError: link entry is neither a string nor a mapping"

/-- The per-link loop of `_run_pipeline_locked` (lines 142–213). The returned
`Except` is an exception escaping the loop (only possible from the code before
the per-link `try`); the `Option` is the `(failure_link, failure_error)` pair
of a caught link failure that broke the loop. -/
def runLoop (o : Orchestrator) (projectId pipelineIdStr pipelineRunId : String)
    (overridesTop : Json) :
    RunState → List LinkWorld → List Json →
    RunState × Except String (Option (String × String))
  | rs, _, [] => (rs, .ok none)
  | rs, worlds, linkInfo :: rest =>
    match entryIdOf linkInfo with
    | .error e => (rs, .error e)
    | .ok idJson =>
      let meta? :=
        match idJson with
        | .str s => (alookup o.registry s).map (fun m => (s, m))
        | _ => none
      match meta? with
      | none =>
        -- "Error: Link ... not found in registry" — printed, loop continues.
        runLoop o projectId pipelineIdStr pipelineRunId overridesTop rs worlds rest
      | some (linkIdStr, linkMeta) =>
        match buildLinkConfig linkMeta.metadata overridesTop linkInfo linkIdStr with
        | .error e => (rs, .error e)
        | .ok linkConfig =>
          match whenConditionOf linkConfig with
          | .error e => (rs, .error e)
          | .ok cond =>
            if !evaluateCondition rs.statusIndex rs.artifactIndex cond then
              let mets := Json.obj
                [("condition", .str cond), ("run_id", .str pipelineRunId),
                 ("worker_id", .str o.workerId)]
              let ev1 := { mkEvent projectId pipelineIdStr linkIdStr "" "evaluate_condition"
                  "SKIPPED" with metrics := mets }
              let ev2 := { mkEvent projectId pipelineIdStr linkIdStr "" "link_complete"
                  "SKIPPED" with metrics := mets }
              let rs := { rs with
                events := rs.events ++ [ev1, ev2],
                statusIndex := aupdate rs.statusIndex linkIdStr "SKIPPED",
                linkDurations := aupdate rs.linkDurations linkIdStr
                  (.obj [("duration_ms", .num 0), ("skipped", .bool true),
                         ("reason", .str cond)]) }
              runLoop o projectId pipelineIdStr pipelineRunId overridesTop rs worlds rest
            else
              let (w, worlds) := popWorld worlds
              let (rs, r1) := executeLink o projectId pipelineIdStr pipelineRunId linkIdStr
                linkConfig false w rs
              match r1 with
              | .error e =>
                let rs := { rs with
                  statusIndex := aupdate rs.statusIndex linkIdStr "FAILED",
                  linkDurations := aupdate rs.linkDurations linkIdStr
                    (.obj [("duration_ms", .num w.durationMs), ("skipped", .bool false),
                           ("error", .str e.msg)]) }
                (rs, .ok (some (linkIdStr, e.msg)))
              | .ok _ =>
                let shadowStep : RunState × List LinkWorld × Option RaisedError :=
                  match linkInfo with
                  | .obj ifs =>
                    match alookup ifs "shadow" with
                    | some (.str shadowId) =>
                      match alookup o.registry shadowId with
                      | some shadowMeta =>
                        let (w2, worlds') := popWorld worlds
                        let (rs', r2) := executeLink o projectId pipelineIdStr pipelineRunId
                          shadowId shadowMeta.metadata true w2 rs
                        (match r2 with
                         | .error e => (rs', worlds', some e)
                         | .ok _ =>
                           let (rs'', r3) := runParityComparison o projectId pipelineIdStr
                             pipelineRunId linkIdStr shadowId w2 rs'
                           match r3 with
                           | .error e => (rs'', worlds', some (plainError e))
                           | .ok _ => (rs'', worlds', none))
                      | none => (rs, worlds, none)
                    | some _ => (rs, worlds, none)
                    | none => (rs, worlds, none)
                  | _ => (rs, worlds, none)
                match shadowStep with
                | (rs, worlds, some e) =>
                  let rs := { rs with
                    statusIndex := aupdate rs.statusIndex linkIdStr "FAILED",
                    linkDurations := aupdate rs.linkDurations linkIdStr
                      (.obj [("duration_ms", .num w.durationMs), ("skipped", .bool false),
                             ("error", .str e.msg)]) }
                  (rs, .ok (some (linkIdStr, e.msg)))
                | (rs, worlds, none) =>
                  let rs :=
                    if alookup rs.statusIndex linkIdStr ≠ some "SKIPPED" then
                      { rs with
                        statusIndex := aupdate rs.statusIndex linkIdStr "SUCCEEDED",
                        linkDurations := aupdate rs.linkDurations linkIdStr
                          (.obj [("duration_ms", .num w.durationMs),
                                 ("skipped", .bool false)]) }
                    else rs
                  runLoop o projectId pipelineIdStr pipelineRunId overridesTop rs worlds rest

/-- The observable outcome of `_run_pipeline_locked`: the ledger, the project
tree, the three persisted artifacts (`none` / `false` when the run raised
before writing them), the in-memory context's final artifact index, and the
overall result. -/
structure RunOutput where
  events : List LedgerEvent
  disk : Disk
  store : ArtifactStore
  persistedIndex : Option (List (String × Json))
  persistedPipeline : Option Json
  persistedSummary : Bool
  finalIndex : List (String × Json)
  statusIndex : List (String × String)
  result : Except String Unit

/-- `pipeline_config.get("pipelineId", "default")` (line 96), as a string for
event fields. -/
def pipelineIdStrOf (cfg : Json) : String :=
  match cfg.get? "pipelineId" with
  | some v => PolicyLoader.pyStrOf v
  | none => "default"

/-- Loading the prior `artifact_index.json` (lines 107–112); a present but
unparseable file raises out of the run. -/
def loadArtifactIndex (d : Disk) : Except String (List (String × Json)) :=
  match alookup d.files "artifact_index.json" with
  | none => .ok []
  | some fd =>
    match fd.json with
    | some (.obj fs) => .ok fs
    | _ => .error "artifact_index.json failed to load"

/-- `_run_pipeline_locked` (lines 83–237), after the pipeline file has been
read and YAML-parsed into `pipelineConfig` (file-system delivery of the
pipeline spec is an input). The exclusive project file lock of
`run_pipeline` is a concurrency mechanism outside this sequential model:
everything here happens while it is held. `ledger0` is the pre-existing
content of the project's ledger file. -/
def runPipelineLocked (o : Orchestrator) (projectId pipelinePath : String)
    (pipelineConfig : Json) (ledger0 : List LedgerEvent) (d0 : Disk)
    (rw : RunWorld) : RunOutput :=
  let pipelineIdStr := pipelineIdStrOf pipelineConfig
  let links := jsonListD pipelineConfig "links"
  let overridesTop := pipelineConfig.getObjD "overrides"
  match checkProjectSizeBudget o d0 projectId pipelineIdStr rw.pipelineRunId with
  | some (ev, msg) =>
    { events := ledger0 ++ [ev], disk := d0, store := ArtifactStore.empty,
      persistedIndex := none, persistedPipeline := none, persistedSummary := false,
      finalIndex := [], statusIndex := [], result := .error msg }
  | none =>
    match loadArtifactIndex d0 with
    | .error e =>
      { events := ledger0, disk := d0, store := ArtifactStore.empty,
        persistedIndex := none, persistedPipeline := none, persistedSummary := false,
        finalIndex := [], statusIndex := [], result := .error e }
    | .ok index0 =>
      let rs0 : RunState := ⟨ledger0, d0, ArtifactStore.empty, index0, [], [], []⟩
      match runLoop o projectId pipelineIdStr rw.pipelineRunId overridesTop rs0
          rw.linkWorlds links with
      | (rs, .error e) =>
        { events := rs.events, disk := rs.disk, store := rs.store,
          persistedIndex := none, persistedPipeline := none, persistedSummary := false,
          finalIndex := rs.artifactIndex, statusIndex := rs.statusIndex,
          result := .error e }
      | (rs, .ok failed?) =>
        let persistedIndexVal := rs.artifactIndex
        let indexFd : FileData :=
          ⟨utf8Bytes (Json.obj persistedIndexVal).dumpsPlain, rw.indexMtime,
           some (.obj persistedIndexVal)⟩
        let yamlFd : FileData := ⟨utf8Bytes pipelineConfig.dumpsPlain, rw.yamlMtime, none⟩
        let rs := { rs with disk :=
          (rs.disk.writeFile "artifact_index.json" indexFd).writeFile "pipeline.yaml" yamlFd }
        let rs := generateRunSummary o projectId pipelineIdStr pipelinePath rw
          failed?.isSome (failed?.map (·.1)) (failed?.map (·.2)) rs
        { events := rs.events, disk := rs.disk, store := rs.store,
          persistedIndex := some persistedIndexVal,
          persistedPipeline := some pipelineConfig,
          persistedSummary := true,
          finalIndex := rs.artifactIndex, statusIndex := rs.statusIndex,
          result :=
            match failed? with
            | some le => .error ("Pipeline failed at link " ++ le.1 ++ ": " ++ le.2)
            | none => .ok () }

/-!
## Shared lemmas
-/

theorem alookup_aupdate {α : Type} (l : List (String × α)) (k : String) (v : α) :
    alookup (aupdate l k v) k = some v := by
  unfold aupdate
  by_cases h : (l.find? (fun p => p.1 = k)).isSome
  · rw [if_pos h]
    induction l with
    | nil => simp at h
    | cons p rest ih =>
      by_cases hpk : p.1 = k
      · simp [alookup, List.find?, hpk]
      · have h' : (rest.find? (fun p => p.1 = k)).isSome := by
          simpa [List.find?_cons, hpk] using h
        have := ih h'
        simpa [alookup, List.find?_cons, hpk] using this
  · rw [if_neg h]
    have hnone : l.find? (fun p => p.1 = k) = none := by
      cases hf : l.find? (fun p => p.1 = k) with
      | none => rfl
      | some x => rw [hf] at h; simp at h
    induction l with
    | nil => simp [alookup]
    | cons p rest ih =>
      by_cases hpk : p.1 = k
      · exfalso
        have : (List.find? (fun p => decide (p.1 = k)) (p :: rest)).isSome := by
          simp [List.find?_cons, hpk]
        rw [hnone] at this
        simp at this
      · have hrest : rest.find? (fun p => p.1 = k) = none := by
          have := hnone
          simpa [List.find?_cons, hpk] using this
        have hrest' : ¬ (rest.find? (fun p => p.1 = k)).isSome := by simp [hrest]
        have := ih hrest' hrest
        simpa [alookup, List.find?_cons, hpk] using this

theorem alookup_cons {α : Type} (a : String) (b : α) (l : List (String × α)) (k : String) :
    alookup ((a, b) :: l) k = if a = k then some b else alookup l k := by
  by_cases h : a = k <;> simp [alookup, List.find?_cons, h]

theorem alookup_map_update_of_ne {α : Type} (l : List (String × α)) (k k' : String)
    (v : α) (h : k ≠ k') :
    alookup (l.map (fun p => if p.1 = k' then (k', v) else p)) k = alookup l k := by
  induction l with
  | nil => rfl
  | cons p rest ih =>
    obtain ⟨pk, pv⟩ := p
    by_cases hp : pk = k'
    · subst hp
      have hpk : pk ≠ k := Ne.symm h
      simp [alookup_cons, hpk, ih]
    · simp only [List.map_cons, if_neg hp]
      by_cases hpk : pk = k
      · subst hpk
        rw [alookup_cons, alookup_cons, if_pos rfl, if_pos rfl]
      · rw [alookup_cons, alookup_cons, if_neg hpk, if_neg hpk, ih]

theorem alookup_aupdate_of_ne {α : Type} (l : List (String × α)) (k k' : String)
    (v : α) (h : k ≠ k') :
    alookup (aupdate l k' v) k = alookup l k := by
  unfold aupdate
  by_cases hf : (l.find? (fun p => p.1 = k')).isSome
  · rw [if_pos hf]
    exact alookup_map_update_of_ne l k k' v h
  · rw [if_neg hf]
    induction l with
    | nil => simp [alookup, List.find?_cons, Ne.symm h]
    | cons p rest ih =>
      obtain ⟨pk, pv⟩ := p
      rw [List.cons_append, alookup_cons, alookup_cons]
      by_cases hpk : pk = k
      · rw [if_pos hpk, if_pos hpk]
      · rw [if_neg hpk, if_neg hpk]
        apply ih
        intro hs
        apply hf
        simp only [List.find?_cons]
        cases hd : decide ((pk, pv).1 = k') with
        | false => simpa [hd] using hs
        | true => simp [hd]

/-!
## Claims
-/

/-- **C8.** `PolicyLoader.is_error_retryable(kind)` returns `False` for every
kind listed in `retry.non_retryable_errors`, even when the kind is also in
`retry.retryable_errors`; it returns `True` exactly for kinds listed in
`retry.retryable_errors` and not in the non-retryable list; a kind in neither
list is not retryable (fail-safe default). -/
theorem is_error_retryable_spec (p : Json) (kind : String) :
    PolicyLoader.is_error_retryable p kind = true ↔
      (Json.str kind ∈ PolicyLoader.retryableErrors p ∧
       Json.str kind ∉ PolicyLoader.nonRetryableErrors p) := by
  unfold PolicyLoader.is_error_retryable
  by_cases h1 : Json.str kind ∈ PolicyLoader.nonRetryableErrors p <;>
    by_cases h2 : Json.str kind ∈ PolicyLoader.retryableErrors p <;>
    simp [h1, h2]

/-- **C9.** Every `when` condition string other than `"always"` that starts
with none of `on_success(`, `on_failure(`, `if_artifact_exists(` falls through
`_evaluate_condition` to `True`: a link with a malformed or unrecognised
condition is executed rather than rejected or skipped. -/
theorem evaluate_condition_fallthrough (si : List (String × String))
    (ai : List (String × Json)) (c : String)
    (h1 : c ≠ "always")
    (h2 : pyStartsWith c "on_success(" = false)
    (h3 : pyStartsWith c "on_failure(" = false)
    (h4 : pyStartsWith c "if_artifact_exists(" = false) :
    evaluateCondition si ai c = true := by
  simp [evaluateCondition, h1, h2, h3, h4]

/-- Witness for C9 at the malformed condition string `"banana"`. -/
theorem evaluate_condition_fallthrough_witness :
    ("banana" ≠ "always" ∧ pyStartsWith "banana" "on_success(" = false ∧
     pyStartsWith "banana" "on_failure(" = false ∧
     pyStartsWith "banana" "if_artifact_exists(" = false) ∧
    evaluateCondition [("x", "FAILED")] [] "banana" = true :=
  ⟨⟨by decide, by decide, by decide, by decide⟩,
   evaluate_condition_fallthrough [("x", "FAILED")] [] "banana"
     (by decide) (by decide) (by decide) (by decide)⟩

/-- **C10.** `Sandbox.write_json` and `Sandbox.write_text` join the
caller-supplied relative path directly onto the link's sandbox root without
normalisation or containment checks, so for some path arguments — here
`"../../evil.txt"` — the file is written outside the link's own sandbox
directory (indeed outside `artifacts/` entirely, directly under the project
root). -/
theorem sandbox_write_escapes_sandbox :
    ∃ path : String,
      ¬ ((Sandbox.sandboxRoot ⟨["home", "proj"], "mylink", false⟩) <+:
          (Sandbox.write_json_target ⟨["home", "proj"], "mylink", false⟩ path)) ∧
      ¬ ((Sandbox.sandboxRoot ⟨["home", "proj"], "mylink", false⟩) <+:
          (Sandbox.write_text_target ⟨["home", "proj"], "mylink", false⟩ path)) ∧
      Sandbox.write_text_target ⟨["home", "proj"], "mylink", false⟩ path
        = ["home", "proj", "evil.txt"] :=
  ⟨"../../evil.txt", by decide, by decide, by decide⟩

/-- The record a (non-shadow or shadow) `register` call leaves in the store
for the registered id. -/
def registeredRecord (st : ArtifactStore) (isShadow : Bool) (aid : String) : Option Json :=
  if isShadow then alookup st.shadowRegistry aid else alookup st.registry aid

/-- **C7.** The digest stored by `ArtifactStore.register` equals the SHA-256
of the actual bytes on disk at the registered path at registration time;
`register` has no caller-supplied digest parameter, and the stored digest is a
function of the disk and path alone — two registrations of the same on-disk
file agree on the digest whatever their other arguments. -/
theorem register_digest_is_disk_sha256 (st st' : ArtifactStore) (d : Disk)
    (aid aid' path : String) (schema producer blobUri schema' producer' blobUri' : Json)
    (sh sh' : Bool) (bytes : List Nat)
    (h : (alookup d.files path).map (·.bytes) = some bytes) :
    ((registeredRecord (st.register d aid path schema producer blobUri sh) sh aid).bind
        (fun r => r.get? "digest")) = some (.str (sha256hex bytes)) ∧
    ((registeredRecord (st.register d aid path schema producer blobUri sh) sh aid).bind
        (fun r => r.get? "digest")) =
      ((registeredRecord (st'.register d aid' path schema' producer' blobUri' sh') sh' aid').bind
        (fun r => r.get? "digest")) := by
  obtain ⟨fd, hfd, hbytes⟩ : ∃ fd, alookup d.files path = some fd ∧ fd.bytes = bytes := by
    cases hl : alookup d.files path with
    | none => rw [hl] at h; simp at h
    | some fd => rw [hl] at h; simp at h; exact ⟨fd, rfl, h⟩
  have main : ∀ (st₀ : ArtifactStore) (aid₀ : String) (schema₀ producer₀ blobUri₀ : Json)
      (sh₀ : Bool),
      ((registeredRecord (st₀.register d aid₀ path schema₀ producer₀ blobUri₀ sh₀) sh₀ aid₀).bind
        (fun r => r.get? "digest")) = some (.str (sha256hex bytes)) := by
    intro st₀ aid₀ schema₀ producer₀ blobUri₀ sh₀
    unfold ArtifactStore.register registeredRecord
    cases sh₀ with
    | false =>
      simp only [Bool.false_eq_true, if_false, reduceIte]
      rw [alookup_aupdate]
      simp [Json.get?, hfd, hbytes, List.find?]
    | true =>
      simp only [reduceIte]
      rw [alookup_aupdate]
      simp [Json.get?, hfd, hbytes, List.find?]
  exact ⟨main st aid schema producer blobUri sh,
    (main st aid schema producer blobUri sh).trans
      (main st' aid' schema' producer' blobUri' sh').symm⟩

/-- Witness for C7: registering `"f.txt"` (bytes `"hi"`) stores exactly the
SHA-256 of those bytes. -/
theorem register_digest_is_disk_sha256_witness :
    ((alookup (Disk.files ⟨[("f.txt", ⟨[104, 105], 7, none⟩)], [], []⟩) "f.txt").map
        (·.bytes) = some [104, 105]) ∧
    ((registeredRecord
        (ArtifactStore.empty.register ⟨[("f.txt", ⟨[104, 105], 7, none⟩)], [], []⟩
          "my.artifact" "f.txt" (.str "json") (.str "mylink") .null false) false
        "my.artifact").bind (fun r => r.get? "digest"))
      = some (.str (sha256hex [104, 105])) :=
  ⟨by decide,
   (register_digest_is_disk_sha256 ArtifactStore.empty ArtifactStore.empty
      ⟨[("f.txt", ⟨[104, 105], 7, none⟩)], [], []⟩ "my.artifact" "my.artifact" "f.txt"
      (.str "json") (.str "mylink") .null (.str "json") (.str "mylink") .null
      false false [104, 105] (by decide)).1⟩

/-- **C6.** Two policy documents that parse to mappings differing only in key
order receive the same `PolicyLoader` digest, and the digest is the SHA-256 of
the canonical sorted-key JSON serialization of the loaded policy. -/
theorem policy_digest_key_order_invariant (a b : Json) (h : Json.SameMapping a b) :
    PolicyLoader.computeDigest a = PolicyLoader.computeDigest b ∧
    PolicyLoader.computeDigest a = sha256hex (utf8Bytes a.dumpsCanonical) := by
  refine ⟨?_, rfl⟩
  unfold PolicyLoader.computeDigest Json.dumpsCanonical
  rw [Json.dumpsWith_congr_sameMapping "," ":" h]

/-- Witness for C6: two concrete two-level policies differing only in key
order (both at the top level and inside `budgets`) share a digest. -/
theorem policy_digest_key_order_invariant_witness :
    Json.SameMapping
        (.obj [("version", .str "2.0.0"),
               ("budgets", .obj [("per_link", .num 1), ("per_project", .num 2)])])
        (.obj [("budgets", .obj [("per_project", .num 2), ("per_link", .num 1)]),
               ("version", .str "2.0.0")]) ∧
    PolicyLoader.computeDigest
        (.obj [("version", .str "2.0.0"),
               ("budgets", .obj [("per_link", .num 1), ("per_project", .num 2)])])
      = PolicyLoader.computeDigest
        (.obj [("budgets", .obj [("per_project", .num 2), ("per_link", .num 1)]),
               ("version", .str "2.0.0")]) := by
  have hinner : Json.SameMapping
      (.obj [("per_link", .num 1), ("per_project", .num 2)])
      (.obj [("per_project", .num 2), ("per_link", .num 1)]) :=
    .obj (.cons "per_link" (.num 1) (.cons "per_project" (.num 2) .nil))
      (List.Perm.swap ("per_project", Json.num 2) ("per_link", Json.num 1) [])
  have h : Json.SameMapping
      (.obj [("version", .str "2.0.0"),
             ("budgets", .obj [("per_link", .num 1), ("per_project", .num 2)])])
      (.obj [("budgets", .obj [("per_project", .num 2), ("per_link", .num 1)]),
             ("version", .str "2.0.0")]) :=
    .obj (.cons "version" (.str "2.0.0") (.cons "budgets" hinner .nil))
      (List.Perm.swap
        ("budgets", Json.obj [("per_project", Json.num 2), ("per_link", Json.num 1)])
        ("version", Json.str "2.0.0") [])
  exact ⟨h, (policy_digest_key_order_invariant _ _ h).1⟩

/-- The hypothesis of C3, in the claim's own terms: the document is missing a
required top-level key, a required budget section, a required per-link or
per-project budget key, or a required key of one of its profiles. -/
def missingAnyRequiredKey (p : Json) : Bool :=
  (PolicyLoader.REQUIRED_KEYS.any (fun k => !p.hasKey k)) ||
  (PolicyLoader.REQUIRED_BUDGET_SECTIONS.any (fun s => !(p.getObjD "budgets").hasKey s)) ||
  (PolicyLoader.REQUIRED_PER_LINK_KEYS.any
    (fun k => !((p.getObjD "budgets").getObjD "per_link").hasKey k)) ||
  (PolicyLoader.REQUIRED_PER_PROJECT_KEYS.any
    (fun k => !((p.getObjD "budgets").getObjD "per_project").hasKey k)) ||
  ((PolicyLoader.fieldsOf (p.getObjD "profiles")).any
    (fun pr => PolicyLoader.REQUIRED_PROFILE_KEYS.any (fun k => !pr.2.hasKey k)))

theorem firstMissing_none_iff (keys : List String) (j : Json) :
    PolicyLoader.firstMissing keys j = none ↔
      keys.any (fun k => !j.hasKey k) = false := by
  unfold PolicyLoader.firstMissing
  rw [List.find?_eq_none]
  simp

/-- A document accepted by `_validate` is missing none of the required keys. -/
theorem validate_ok_no_missing (p : Json) (h : PolicyLoader.validate p = .ok ()) :
    missingAnyRequiredKey p = false := by
  unfold PolicyLoader.validate at h
  cases h1 : PolicyLoader.firstMissing PolicyLoader.REQUIRED_KEYS p with
  | some k => rw [h1] at h; exact absurd h (by simp)
  | none =>
  rw [h1] at h
  cases h2 : PolicyLoader.firstMissing PolicyLoader.REQUIRED_BUDGET_SECTIONS
      (p.getObjD "budgets") with
  | some s => rw [h2] at h; exact absurd h (by simp)
  | none =>
  rw [h2] at h
  cases h3 : PolicyLoader.firstMissing PolicyLoader.REQUIRED_PER_LINK_KEYS
      ((p.getObjD "budgets").getObjD "per_link") with
  | some k => rw [h3] at h; exact absurd h (by simp)
  | none =>
  rw [h3] at h
  cases h4 : PolicyLoader.firstMissing PolicyLoader.REQUIRED_PER_PROJECT_KEYS
      ((p.getObjD "budgets").getObjD "per_project") with
  | some k => rw [h4] at h; exact absurd h (by simp)
  | none =>
  rw [h4] at h
  by_cases h5 : PolicyLoader.defaultProfileFound ((p.get? "default_profile").getD .null)
      (p.getObjD "profiles") = false
  · rw [if_pos (by simp [h5])] at h
    exact absurd h (by simp)
  · rw [if_neg (by simpa using h5)] at h
    cases h6 : PolicyLoader.firstBadProfile (PolicyLoader.fieldsOf (p.getObjD "profiles")) with
    | some pk => rw [h6] at h; exact absurd h (by simp)
    | none =>
    rw [h6] at h
    have hprof : (PolicyLoader.fieldsOf (p.getObjD "profiles")).any
        (fun pr => PolicyLoader.REQUIRED_PROFILE_KEYS.any (fun k => !pr.2.hasKey k)) = false := by
      rw [List.any_eq_false]
      intro pr hpr
      have := List.findSome?_eq_none_iff.mp h6 pr hpr
      have hfm : PolicyLoader.firstMissing PolicyLoader.REQUIRED_PROFILE_KEYS pr.2 = none := by
        cases hf : PolicyLoader.firstMissing PolicyLoader.REQUIRED_PROFILE_KEYS pr.2 with
        | none => rfl
        | some k => rw [hf] at this; simp at this
      simpa using (firstMissing_none_iff _ _).mp hfm
    unfold missingAnyRequiredKey
    rw [(firstMissing_none_iff _ _).mp h1, (firstMissing_none_iff _ _).mp h2,
      (firstMissing_none_iff _ _).mp h3, (firstMissing_none_iff _ _).mp h4, hprof]
    rfl

/-- Counterexample to **C3** as stated: loading the empty mapping — which is
missing every required key — raises `PolicyValidationError`, yet afterwards
the `policy` accessor returns the invalid parsed document instead of behaving
as if `load` had never been called (the loader caches `_policy` before
validation runs). -/
theorem load_missing_key_caches_policy_counterexample :
    missingAnyRequiredKey (.obj []) = true ∧
    (PolicyLoader.load (.content (some (.obj []))) PolicyLoader.LoaderState.fresh).1
      = .error "Missing required key: version" ∧
    (PolicyLoader.load (.content (some (.obj [])))
        PolicyLoader.LoaderState.fresh).2.policyProperty = some (.obj []) ∧
    PolicyLoader.LoaderState.fresh.policyProperty = none := by
  exact ⟨by decide, rfl, by decide, rfl⟩

/-- **C3** (amended). For every policy document missing any required key,
`load()` on a fresh loader fails with `PolicyValidationError` and leaves no
cached digest — the digest accessor behaves as if `load` had never been
called — but the parsed (invalid) document remains cached in the policy slot,
so the policy accessor returns it. -/
theorem load_missing_key_fails_digest_uncached (doc : Json)
    (h : missingAnyRequiredKey doc = true) :
    (∃ msg, PolicyLoader.load (.content (some doc)) PolicyLoader.LoaderState.fresh
        = (.error msg, ⟨some doc, none⟩)) ∧
    (PolicyLoader.load (.content (some doc))
        PolicyLoader.LoaderState.fresh).2.digestProperty = none ∧
    (PolicyLoader.load (.content (some doc))
        PolicyLoader.LoaderState.fresh).2.policyProperty = some doc := by
  have hv : ∃ msg, PolicyLoader.validate doc = .error msg := by
    cases hval : PolicyLoader.validate doc with
    | error m => exact ⟨m, rfl⟩
    | ok u =>
      cases u
      rw [validate_ok_no_missing doc hval] at h
      exact absurd h (by simp)
  obtain ⟨msg, hmsg⟩ := hv
  have hload : PolicyLoader.load (.content (some doc)) PolicyLoader.LoaderState.fresh
      = (.error msg, ⟨some doc, none⟩) := by
    simp only [PolicyLoader.load, hmsg]
    rfl
  refine ⟨⟨msg, hload⟩, ?_, ?_⟩ <;> rw [hload] <;> rfl

/-- Witness for the amended C3 at the empty mapping. -/
theorem load_missing_key_fails_digest_uncached_witness :
    missingAnyRequiredKey (.obj []) = true ∧
    (PolicyLoader.load (.content (some (.obj [])))
        PolicyLoader.LoaderState.fresh).2.digestProperty = none :=
  ⟨by decide, (load_missing_key_fails_digest_uncached (.obj []) (by decide)).2.1⟩

/-- When `per_project.max_project_bytes` is a nonzero integer exceeded by the
project's total file bytes, `_check_project_size_budget` produces the
`BUDGET_PROJECT_LIMIT` event and the abort message. -/
theorem checkProjectSizeBudget_exceeded (o : Orchestrator) (d : Disk)
    (projectId pipelineId runId : String) (m : Int)
    (hb : PolicyLoader.get_budget o.policy "per_project" "max_project_bytes"
        = some (.num m))
    (hm : m ≠ 0) (hx : (dirBytes d "" : Int) > m) :
    checkProjectSizeBudget o d projectId pipelineId runId = some
      ({ mkEvent projectId pipelineId "__preflight__" runId "budget_check" "FAILED" with
           errors := .obj
             [("type", .str "BUDGET_PROJECT_LIMIT"),
              ("message", .str ("BUDGET_PROJECT_LIMIT: Project size " ++
                natRepr (dirBytes d "") ++ " bytes exceeds limit of " ++
                intRepr m ++ " bytes")),
              ("measured_bytes", .num (dirBytes d "")), ("limit_bytes", .num m)],
           metrics := .obj [("run_id", .str runId), ("worker_id", .str o.workerId)] },
       "BUDGET_PROJECT_LIMIT: Project size " ++ natRepr (dirBytes d "") ++
         " bytes exceeds limit of " ++ intRepr m ++ " bytes") := by
  have ht : PolicyLoader.truthyOpt (some (.num m)) = true := by
    simp [PolicyLoader.truthyOpt, Json.truthy, hm]
  unfold checkProjectSizeBudget
  rw [hb]
  simp only [ht, Bool.not_true, Bool.false_eq_true, if_false]
  rw [if_pos hx]

/-- Counterexample to **C5** as stated: with `max_project_bytes: 0` declared
in the policy, a 1-byte project exceeds the budget, yet the falsy-value guard
(`if not max_project_bytes`) disables the check entirely — the run proceeds
past pre-flight (here to success) and records no ledger event at all, in
particular no `BUDGET_PROJECT_LIMIT` event and no abort. -/
theorem project_size_budget_zero_disabled_counterexample :
    PolicyLoader.get_budget
        (.obj [("budgets", .obj [("per_project", .obj [("max_project_bytes", .num 0)])])])
        "per_project" "max_project_bytes" = some (.num 0) ∧
    dirBytes (⟨[("a.txt", ⟨[0], 1, none⟩)], [], []⟩ : Disk) "" = 1 ∧
    (runPipelineLocked
        ⟨.obj [("budgets", .obj [("per_project", .obj [("max_project_bytes", .num 0)])])],
         "normal", "w:1", []⟩
        "proj" "pipeline.yaml" (.obj []) [] (⟨[("a.txt", ⟨[0], 1, none⟩)], [], []⟩ : Disk)
        ⟨"run1", [], .null, .null, 0, none, 0, 0, 0, 0⟩).events = [] ∧
    (runPipelineLocked
        ⟨.obj [("budgets", .obj [("per_project", .obj [("max_project_bytes", .num 0)])])],
         "normal", "w:1", []⟩
        "proj" "pipeline.yaml" (.obj []) [] (⟨[("a.txt", ⟨[0], 1, none⟩)], [], []⟩ : Disk)
        ⟨"run1", [], .null, .null, 0, none, 0, 0, 0, 0⟩).result = .ok () :=
  ⟨by decide, by decide, rfl, rfl⟩

/-- **C5** (amended). If `budgets.per_project.max_project_bytes` is set to a
nonzero (truthy) value and the total size in bytes of all files under the
project root exceeds it, the run appends exactly one ledger event — a FAILED
`budget_check` event for `__preflight__` carrying `BUDGET_PROJECT_LIMIT` —
and aborts before any link executes: nothing is persisted, the run raises,
and no `STARTED` ledger event for any link is written in that run. -/
theorem project_size_budget_preempts_links (o : Orchestrator)
    (projectId pipelinePath : String) (cfg : Json) (ledger0 : List LedgerEvent)
    (d0 : Disk) (rw : RunWorld) (m : Int)
    (hb : PolicyLoader.get_budget o.policy "per_project" "max_project_bytes"
        = some (.num m))
    (hm : m ≠ 0) (hx : (dirBytes d0 "" : Int) > m) :
    ∃ ev msg,
      runPipelineLocked o projectId pipelinePath cfg ledger0 d0 rw =
        { events := ledger0 ++ [ev], disk := d0, store := ArtifactStore.empty,
          persistedIndex := none, persistedPipeline := none, persistedSummary := false,
          finalIndex := [], statusIndex := [], result := .error msg } ∧
      ev.errors.get? "type" = some (.str "BUDGET_PROJECT_LIMIT") ∧
      ev.status = "FAILED" ∧ ev.stepId = "budget_check" ∧
      ev.linkId = "__preflight__" ∧ ev.status ≠ "STARTED" := by
  have hcheck := checkProjectSizeBudget_exceeded o d0 projectId (pipelineIdStrOf cfg)
    rw.pipelineRunId m hb hm hx
  refine ⟨{ mkEvent projectId (pipelineIdStrOf cfg) "__preflight__" rw.pipelineRunId
      "budget_check" "FAILED" with
      errors := .obj
        [("type", .str "BUDGET_PROJECT_LIMIT"),
         ("message", .str ("BUDGET_PROJECT_LIMIT: Project size " ++
           natRepr (dirBytes d0 "") ++ " bytes exceeds limit of " ++
           intRepr m ++ " bytes")),
         ("measured_bytes", .num (dirBytes d0 "")), ("limit_bytes", .num m)],
      metrics := .obj [("run_id", .str rw.pipelineRunId), ("worker_id", .str o.workerId)] },
    "BUDGET_PROJECT_LIMIT: Project size " ++ natRepr (dirBytes d0 "") ++
      " bytes exceeds limit of " ++ intRepr m ++ " bytes",
    ?_, by simp [mkEvent, Json.get?, List.find?], rfl, rfl, rfl, by simp [mkEvent]⟩
  simp only [runPipelineLocked]
  rw [hcheck]

/-- Counterexample to **C4** as stated: a run aborted by the pre-flight
project-size budget check (limit 10, an 11-byte file) raises without
persisting the artifact index, the pipeline spec copy, or the run summary —
persistence is *not* unconditional. -/
theorem persistence_skipped_on_preflight_abort_counterexample :
    (∃ msg, (runPipelineLocked
        ⟨.obj [("budgets", .obj [("per_project", .obj [("max_project_bytes", .num 10)])])],
         "normal", "w:1", []⟩
        "proj" "pipeline.yaml" (.obj []) []
        (⟨[("big.bin", ⟨[0, 1, 2, 3, 4, 5, 6, 7, 8, 9, 10], 1, none⟩)], [], []⟩ : Disk)
        ⟨"run1", [], .null, .null, 0, none, 0, 0, 0, 0⟩).result = .error msg) ∧
    (runPipelineLocked
        ⟨.obj [("budgets", .obj [("per_project", .obj [("max_project_bytes", .num 10)])])],
         "normal", "w:1", []⟩
        "proj" "pipeline.yaml" (.obj []) []
        (⟨[("big.bin", ⟨[0, 1, 2, 3, 4, 5, 6, 7, 8, 9, 10], 1, none⟩)], [], []⟩ : Disk)
        ⟨"run1", [], .null, .null, 0, none, 0, 0, 0, 0⟩).persistedIndex = none ∧
    (runPipelineLocked
        ⟨.obj [("budgets", .obj [("per_project", .obj [("max_project_bytes", .num 10)])])],
         "normal", "w:1", []⟩
        "proj" "pipeline.yaml" (.obj []) []
        (⟨[("big.bin", ⟨[0, 1, 2, 3, 4, 5, 6, 7, 8, 9, 10], 1, none⟩)], [], []⟩ : Disk)
        ⟨"run1", [], .null, .null, 0, none, 0, 0, 0, 0⟩).persistedPipeline = none ∧
    (runPipelineLocked
        ⟨.obj [("budgets", .obj [("per_project", .obj [("max_project_bytes", .num 10)])])],
         "normal", "w:1", []⟩
        "proj" "pipeline.yaml" (.obj []) []
        (⟨[("big.bin", ⟨[0, 1, 2, 3, 4, 5, 6, 7, 8, 9, 10], 1, none⟩)], [], []⟩ : Disk)
        ⟨"run1", [], .null, .null, 0, none, 0, 0, 0, 0⟩).persistedSummary = false :=
  ⟨⟨_, rfl⟩, rfl, rfl, rfl⟩

/-- **C4** (amended). Once a run is past its pre-flight gates — the pipeline
spec parsed, the project-size budget check passed, the prior artifact index
loaded, and the per-link loop ran to completion (with or without a recorded
link failure) — `RunPipeline` persists the final artifact index
(`artifact_index.json`), a copy of the resolved pipeline spec
(`pipeline.yaml`), and the run-summary artifact before returning or raising,
whether the run succeeded or failed. (The pre-flight abort itself raises
before any of the three, per the counterexample.) -/
theorem run_persists_after_preflight (o : Orchestrator)
    (projectId pipelinePath : String) (cfg : Json) (ledger0 : List LedgerEvent)
    (d0 : Disk) (rw : RunWorld) (i0 : List (String × Json)) (rs : RunState)
    (f? : Option (String × String))
    (hpre : checkProjectSizeBudget o d0 projectId (pipelineIdStrOf cfg)
        rw.pipelineRunId = none)
    (hidx : loadArtifactIndex d0 = .ok i0)
    (hloop : runLoop o projectId (pipelineIdStrOf cfg) rw.pipelineRunId
        (cfg.getObjD "overrides") ⟨ledger0, d0, ArtifactStore.empty, i0, [], [], []⟩
        rw.linkWorlds (jsonListD cfg "links") = (rs, .ok f?)) :
    (runPipelineLocked o projectId pipelinePath cfg ledger0 d0 rw).persistedIndex
        = some rs.artifactIndex ∧
    (runPipelineLocked o projectId pipelinePath cfg ledger0 d0 rw).persistedPipeline
        = some cfg ∧
    (runPipelineLocked o projectId pipelinePath cfg ledger0 d0 rw).persistedSummary
        = true ∧
    (alookup (runPipelineLocked o projectId pipelinePath cfg ledger0 d0 rw).disk.files
        "artifact_index.json").isSome ∧
    (alookup (runPipelineLocked o projectId pipelinePath cfg ledger0 d0 rw).disk.files
        "pipeline.yaml").isSome ∧
    (alookup (runPipelineLocked o projectId pipelinePath cfg ledger0 d0 rw).disk.files
        "artifacts/package.metrics/run_summary.json").isSome ∧
    ((runPipelineLocked o projectId pipelinePath cfg ledger0 d0 rw).result = .ok ()
        ↔ f? = none) := by
  refine ⟨?_, ?_, ?_, ?_, ?_, ?_, ?_⟩
  · simp only [runPipelineLocked, hpre, hidx, hloop]
  · simp only [runPipelineLocked, hpre, hidx, hloop]
  · simp only [runPipelineLocked, hpre, hidx, hloop]
  · simp only [runPipelineLocked, hpre, hidx, hloop, generateRunSummary, Disk.writeFile]
    rw [alookup_aupdate_of_ne _ _ _ _ (by decide),
      alookup_aupdate_of_ne _ _ _ _ (by decide), alookup_aupdate]
    rfl
  · simp only [runPipelineLocked, hpre, hidx, hloop, generateRunSummary, Disk.writeFile]
    rw [alookup_aupdate_of_ne _ _ _ _ (by decide), alookup_aupdate]
    rfl
  · simp only [runPipelineLocked, hpre, hidx, hloop, generateRunSummary, Disk.writeFile]
    rw [alookup_aupdate]
    rfl
  · simp only [runPipelineLocked, hpre, hidx, hloop]
    cases f? <;> simp

/-- Witness for the amended C4: an empty-links run on an empty project with an
empty policy persists all three artifacts and succeeds. -/
theorem run_persists_after_preflight_witness :
    (runPipelineLocked ⟨.obj [], "normal", "w:1", []⟩ "proj" "pipeline.yaml" (.obj []) []
        (⟨[], [], []⟩ : Disk)
        ⟨"run1", [], .null, .null, 0, none, 0, 0, 0, 0⟩).persistedSummary = true ∧
    (alookup (runPipelineLocked ⟨.obj [], "normal", "w:1", []⟩ "proj" "pipeline.yaml"
        (.obj []) [] (⟨[], [], []⟩ : Disk)
        ⟨"run1", [], .null, .null, 0, none, 0, 0, 0, 0⟩).disk.files
        "artifact_index.json").isSome ∧
    ((runPipelineLocked ⟨.obj [], "normal", "w:1", []⟩ "proj" "pipeline.yaml" (.obj []) []
        (⟨[], [], []⟩ : Disk)
        ⟨"run1", [], .null, .null, 0, none, 0, 0, 0, 0⟩).result = .ok () ↔
      (none : Option (String × String)) = none) :=
  let h := run_persists_after_preflight ⟨.obj [], "normal", "w:1", []⟩ "proj" "pipeline.yaml"
    (.obj []) [] (⟨[], [], []⟩ : Disk) ⟨"run1", [], .null, .null, 0, none, 0, 0, 0, 0⟩
    [] ⟨[], ⟨[], [], []⟩, ArtifactStore.empty, [], [], [], []⟩ none rfl rfl rfl
  ⟨h.2.2.1, h.2.2.2.1, h.2.2.2.2.2.2⟩

/-- The leaks list of the sandbox scan contains a path exactly when the
post-run snapshot shows it as a non-ignored file, matching no allowed string
prefix, that was created or modified relative to the pre-run snapshot. -/
theorem computeLeaks_mem (prefixes : List String) (pre post : List (String × Nat))
    (p : String) :
    p ∈ computeLeaks prefixes pre post ↔
      ∃ m, (p, m) ∈ post ∧ isIgnoredPath p = false ∧
        (∀ pfx ∈ prefixes, pyStartsWith p pfx = false) ∧
        alookup pre p ≠ some m := by
  unfold computeLeaks
  rw [List.mem_filterMap]
  constructor
  · rintro ⟨⟨q, m⟩, hmem, hf⟩
    by_cases h1 : isIgnoredPath q = true
    · simp [h1] at hf
    · by_cases h2 : prefixes.any (fun pfx => pyStartsWith q pfx) = true
      · simp [h1, h2] at hf
      · by_cases h3 : alookup pre q ≠ some m
        · have hq : q = p := by simpa [h1, h2, h3] using hf
          subst hq
          refine ⟨m, hmem, by simpa using h1, ?_, h3⟩
          intro pfx hpfx
          have hall := List.any_eq_false.mp (by simpa using h2)
          simpa using hall pfx hpfx
        · simp [h1, h2, h3] at hf
  · rintro ⟨m, hmem, h1, h2, h3⟩
    refine ⟨(p, m), hmem, ?_⟩
    have hany : prefixes.any (fun pfx => pyStartsWith p pfx) = false := by
      rw [List.any_eq_false]
      intro pfx hpfx
      simp [h2 pfx hpfx]
    simp [h1, hany, h3]

/-- With one or more leaks, the sandbox scan writes the `POLICY_VIOLATION`
event carrying the full leak list and raises with `_logged` set. -/
theorem checkSandboxViolationsStage_leaks (c : LinkCtx) (policy : Json) (profile : String)
    (isShadow : Bool) (pre post : List (String × Nat)) (prefixes : List String)
    (hap : allowedPrefixes policy profile c.linkId isShadow = .ok prefixes)
    (hl : computeLeaks prefixes pre post ≠ []) :
    checkSandboxViolationsStage c policy profile isShadow pre post =
      ([{ mkEvent c.projectId c.pipelineId c.linkId c.runId "sandbox_check" "FAILED" with
            errors := .obj
              [("type", .str "POLICY_VIOLATION"),
               ("message", .str ("POLICY_VIOLATION: Link " ++ c.linkId ++
                 " modified files outside allowed sandbox roots")),
               ("leaked_paths", .arr ((computeLeaks prefixes pre post).map .str))],
            metrics := runWorkerMetrics c,
            policyVersions := c.policyVersions }],
       .error ⟨"POLICY_VIOLATION: Link " ++ c.linkId ++
         " modified files outside allowed sandbox roots", true, false⟩) := by
  unfold checkSandboxViolationsStage
  rw [hap]
  simp only []
  rw [if_neg (fun h => hl (List.isEmpty_iff.mp h))]

/-- Counterexample to **C1** as stated: a link (under a profile that forbids
source writes) creates `evil.pyc` at the project root — a path outside every
allowed prefix — yet the scan's ephemeral-file guard (`.pyc`) exempts it:
no `POLICY_VIOLATION` is raised and no event is logged. -/
theorem sandbox_scan_exempts_pyc_counterexample :
    allowedPrefixes
        (.obj [("profiles", .obj [("normal", .obj [("allow_src_writes", .bool false),
          ("artifact_only_outputs", .bool false)])])])
        "normal" "mylink" false
      = .ok ["artifacts/mylink", "ledger", "runs", "healing", "inputs"] ∧
    (["artifacts/mylink", "ledger", "runs", "healing", "inputs"].all
        (fun pfx => !pyStartsWith "evil.pyc" pfx)) = true ∧
    alookup ([] : List (String × Nat)) "evil.pyc" = none ∧
    checkSandboxViolationsStage ⟨"proj", "pipe", "mylink", "r1", "prun", "w:1", .obj []⟩
        (.obj [("profiles", .obj [("normal", .obj [("allow_src_writes", .bool false),
          ("artifact_only_outputs", .bool false)])])])
        "normal" false [] [("evil.pyc", 1)]
      = ([], .ok ()) :=
  ⟨rfl, by decide, by decide, rfl⟩

/-- **C1** (amended). For every link execution that reaches the post-run
sandbox scan (inputs validated, module loaded, plugin finished within the
timeout — with *no* assumption on the plugin's reported status, so the check
runs even when the plugin reported success): if the pre/post snapshots show
any created or modified file that is not exempt (ephemeral `__pycache__`/
`.pyc` files and orchestrator-updated system files) and whose relative path
starts with none of the allowed prefixes (the link's `artifacts/<link_id>`
directory, `ledger`, `runs`, `healing`, `inputs`, plus `src` exactly when the
profile allows source writes and the link is whitelisted), then the link
fails with a `POLICY_VIOLATION` error whose ledger event is written before
the error is raised (and is not duplicated by the generic handler), and the
event's `leaked_paths` field contains exactly the offending relative paths. -/
theorem sandbox_violation_fails_link (o : Orchestrator)
    (projectId pipelineId pipelineRunId linkId : String) (linkConfig : Json)
    (w : LinkWorld) (rs : RunState) (prefixes : List String) (r0 : Json) (t : Int)
    (hskip : skipDecision rs.events linkId linkConfig
        (calculateInputSignature rs.store rs.disk linkId linkConfig) = false)
    (hv : validateInputsLoop ⟨projectId, pipelineId, linkId, w.runId, pipelineRunId,
        o.workerId, policyVersionsFor o linkConfig⟩ rs.store rs.disk
        (jsonListD (linkConfig.getObjD "spec") "requires") = ([], .ok ()))
    (hm : w.moduleLoadError = none)
    (ht : effectiveTimeoutFor o linkConfig = .ok t)
    (hpo : w.pluginOutcome = .returns r0)
    (hap : allowedPrefixes o.policy o.profile linkId false = .ok prefixes)
    (hleaks : computeLeaks prefixes (fsSnapshot rs.disk)
        (fsSnapshot (applyPluginOps linkId false (rs.disk, rs.store) w.pluginOps).1) ≠ []) :
    (executeLink o projectId pipelineId pipelineRunId linkId linkConfig false w rs).2
      = .error ⟨"POLICY_VIOLATION: Link " ++ linkId ++
          " modified files outside allowed sandbox roots", true, false⟩ ∧
    (executeLink o projectId pipelineId pipelineRunId linkId linkConfig false w rs).1.events
      = rs.events ++
        [{ mkEvent projectId pipelineId linkId w.runId "link_start" "STARTED" with
             metrics := .obj
               [("input_signature",
                 .str (calculateInputSignature rs.store rs.disk linkId linkConfig)),
                ("run_id", .str pipelineRunId), ("worker_id", .str o.workerId)],
             policyVersions := policyVersionsFor o linkConfig },
         { mkEvent projectId pipelineId linkId w.runId "sandbox_check" "FAILED" with
             errors := .obj
               [("type", .str "POLICY_VIOLATION"),
                ("message", .str ("POLICY_VIOLATION: Link " ++ linkId ++
                  " modified files outside allowed sandbox roots")),
                ("leaked_paths", .arr ((computeLeaks prefixes (fsSnapshot rs.disk)
                  (fsSnapshot (applyPluginOps linkId false (rs.disk, rs.store)
                    w.pluginOps).1)).map .str))],
             metrics := .obj
               [("run_id", .str pipelineRunId), ("worker_id", .str o.workerId)],
             policyVersions := policyVersionsFor o linkConfig }] ∧
    (∀ p, p ∈ computeLeaks prefixes (fsSnapshot rs.disk)
          (fsSnapshot (applyPluginOps linkId false (rs.disk, rs.store) w.pluginOps).1) ↔
      ∃ m, (p, m) ∈ fsSnapshot (applyPluginOps linkId false (rs.disk, rs.store)
            w.pluginOps).1 ∧
        isIgnoredPath p = false ∧
        (∀ pfx ∈ prefixes, pyStartsWith p pfx = false) ∧
        alookup (fsSnapshot rs.disk) p ≠ some m) := by
  have hstage := checkSandboxViolationsStage_leaks
    ⟨projectId, pipelineId, linkId, w.runId, pipelineRunId, o.workerId,
      policyVersionsFor o linkConfig⟩
    o.policy o.profile false (fsSnapshot rs.disk)
    (fsSnapshot (applyPluginOps linkId false (rs.disk, rs.store) w.pluginOps).1)
    prefixes hap hleaks
  refine ⟨?_, ?_, fun p => computeLeaks_mem _ _ _ p⟩
  · simp only [executeLink, hskip, Bool.false_eq_true, if_false, executeLinkTry, hv, hm,
      ht, hpo, hstage]
  · simp only [executeLink, hskip, Bool.false_eq_true, if_false, executeLinkTry, hv, hm,
      ht, hpo, hstage]
    simp [runWorkerMetrics, List.append_assoc]

/-- Witness for `sandbox_violation_fails_link`: a fresh link `mylink` (no prior
`link_complete` event, so no skip) whose plugin writes `evil.txt` at the
project root; the leak list is exactly `["evil.txt"]` and the execution fails
with the logged `POLICY_VIOLATION` error. -/
theorem sandbox_violation_fails_link_witness :
    (skipDecision [] "mylink" (.obj [("max_wall_time_sec", .num 5)])
        (calculateInputSignature ArtifactStore.empty ⟨[], [], []⟩ "mylink"
          (.obj [("max_wall_time_sec", .num 5)])) = false ∧
     computeLeaks ["artifacts/mylink", "ledger", "runs", "healing", "inputs"]
        (fsSnapshot ⟨[], [], []⟩)
        (fsSnapshot (applyPluginOps "mylink" false
          (⟨[], [], []⟩, ArtifactStore.empty)
          [.writeFile "evil.txt" ⟨[65], 1, none⟩]).1) = ["evil.txt"]) ∧
    (executeLink
        ⟨.obj [("profiles", .obj [("normal", .obj [("allow_src_writes", .bool false),
           ("artifact_only_outputs", .bool false)])])], "normal", "w:1", []⟩
        "proj" "pipe" "prun" "mylink" (.obj [("max_wall_time_sec", .num 5)]) false
        ⟨"r1", none, [.writeFile "evil.txt" ⟨[65], 1, none⟩], .returns .null, "",
          fun _ _ => none, false, .null, "", "", 0, .null, 0, 0⟩
        ⟨[], ⟨[], [], []⟩, ArtifactStore.empty, [], [], [], []⟩).2
      = .error ⟨"POLICY_VIOLATION: Link " ++ "mylink" ++
          " modified files outside allowed sandbox roots", true, false⟩ :=
  ⟨⟨by decide, by decide⟩,
   (sandbox_violation_fails_link
      ⟨.obj [("profiles", .obj [("normal", .obj [("allow_src_writes", .bool false),
         ("artifact_only_outputs", .bool false)])])], "normal", "w:1", []⟩
      "proj" "pipe" "prun" "mylink" (.obj [("max_wall_time_sec", .num 5)])
      ⟨"r1", none, [.writeFile "evil.txt" ⟨[65], 1, none⟩], .returns .null, "",
        fun _ _ => none, false, .null, "", "", 0, .null, 0, 0⟩
      ⟨[], ⟨[], [], []⟩, ArtifactStore.empty, [], [], [], []⟩
      ["artifacts/mylink", "ledger", "runs", "healing", "inputs"] .null 5
      (by decide) rfl rfl rfl rfl rfl (by decide)).1⟩

theorem project_size_budget_preempts_links_witness :
    (PolicyLoader.get_budget
        (.obj [("budgets", .obj [("per_project", .obj [("max_project_bytes", .num 10)])])])
        "per_project" "max_project_bytes" = some (.num 10) ∧
     (10 : Int) ≠ 0 ∧
     ((dirBytes (⟨[("big.bin", ⟨[0, 1, 2, 3, 4, 5, 6, 7, 8, 9, 10], 1, none⟩)], [], []⟩ : Disk)
        "") : Int) > 10) ∧
    (∃ ev msg,
      runPipelineLocked
          ⟨.obj [("budgets", .obj [("per_project", .obj [("max_project_bytes", .num 10)])])],
           "normal", "w:1", []⟩
          "proj" "pipeline.yaml" (.obj []) []
          (⟨[("big.bin", ⟨[0, 1, 2, 3, 4, 5, 6, 7, 8, 9, 10], 1, none⟩)], [], []⟩ : Disk)
          ⟨"run1", [], .null, .null, 0, none, 0, 0, 0, 0⟩ =
        { events := [] ++ [ev], disk := ⟨[("big.bin", ⟨[0, 1, 2, 3, 4, 5, 6, 7, 8, 9, 10], 1, none⟩)], [], []⟩,
          store := ArtifactStore.empty,
          persistedIndex := none, persistedPipeline := none, persistedSummary := false,
          finalIndex := [], statusIndex := [], result := .error msg } ∧
      ev.errors.get? "type" = some (.str "BUDGET_PROJECT_LIMIT") ∧
      ev.status = "FAILED" ∧ ev.stepId = "budget_check" ∧
      ev.linkId = "__preflight__" ∧ ev.status ≠ "STARTED") :=
  ⟨⟨by decide, by decide, by decide⟩,
   project_size_budget_preempts_links
     ⟨.obj [("budgets", .obj [("per_project", .obj [("max_project_bytes", .num 10)])])],
      "normal", "w:1", []⟩
     "proj" "pipeline.yaml" (.obj []) []
     (⟨[("big.bin", ⟨[0, 1, 2, 3, 4, 5, 6, 7, 8, 9, 10], 1, none⟩)], [], []⟩ : Disk)
     ⟨"run1", [], .null, .null, 0, none, 0, 0, 0, 0⟩ 10
     (by decide) (by decide) (by decide)⟩

/-!
## Idempotent re-runs (lines 142–213 and 316–377)

`SkipRun` is the proof-side record of a loop pass in which every links-list
entry resolves in the registry, its `when` condition evaluates true, and its
ALREADY_DONE skip fires (matching input signature, successful rehydration,
and a non-empty rehydrated set whenever required artifacts are declared);
entries with a `shadow` companion are outside the relation.
-/

inductive SkipRun (o : Orchestrator) (projectId pipelineIdStr pipelineRunId : String)
    (overridesTop : Json) : RunState → List LinkWorld → List Json → RunState → Prop where
  | nil (rs : RunState) (worlds : List LinkWorld) :
      SkipRun o projectId pipelineIdStr pipelineRunId overridesTop rs worlds [] rs
  | step (rs : RunState) (worlds : List LinkWorld) (linkInfo : Json) (rest : List Json)
      (linkIdStr : String) (linkMeta : LinkMeta) (linkConfig : Json) (cond : String)
      (w : LinkWorld) (worlds' : List LinkWorld) (store' : ArtifactStore) (count : Nat)
      (required : List Json) (rsF : RunState)
      (hid : entryIdOf linkInfo = .ok (.str linkIdStr))
      (hsh : ∀ ifs, linkInfo = .obj ifs → alookup ifs "shadow" = none)
      (hreg : alookup o.registry linkIdStr = some linkMeta)
      (hcfg : buildLinkConfig linkMeta.metadata overridesTop linkInfo linkIdStr
        = .ok linkConfig)
      (hwhen : whenConditionOf linkConfig = .ok cond)
      (hcond : evaluateCondition rs.statusIndex rs.artifactIndex cond = true)
      (hpop : popWorld worlds = (w, worlds'))
      (hskip : skipDecision rs.events linkIdStr linkConfig
        (calculateInputSignature rs.store rs.disk linkIdStr linkConfig) = true)
      (hre : rs.store.rehydrate_from_link_dir rs.disk linkIdStr false = .ok (store', count))
      (hreq : requiredArtifactsOf (jsonListD (linkConfig.getObjD "spec") "produces")
        = .ok required)
      (hguard : (!required.isEmpty && count = 0) = false)
      (hrest : SkipRun o projectId pipelineIdStr pipelineRunId overridesTop
        { rs with
            store := store',
            events := rs.events ++
              [skipEventOf o projectId pipelineIdStr linkIdStr w.runId linkConfig count],
            statusIndex := aupdate rs.statusIndex linkIdStr "SKIPPED" }
        worlds' rest rsF) :
      SkipRun o projectId pipelineIdStr pipelineRunId overridesTop rs worlds
        (linkInfo :: rest) rsF

/-- The ALREADY_DONE branch of `_execute_link` (lines 316–377): rehydrate,
append the single `skip` event, mark the link `SKIPPED` in the status index,
and return success — disk, artifact index and prior events untouched. -/
theorem executeLink_skip (o : Orchestrator) (projectId pipelineId pipelineRunId : String)
    (linkId : String) (linkConfig : Json) (w : LinkWorld) (rs : RunState)
    (store' : ArtifactStore) (count : Nat) (required : List Json)
    (hskip : skipDecision rs.events linkId linkConfig
      (calculateInputSignature rs.store rs.disk linkId linkConfig) = true)
    (hre : rs.store.rehydrate_from_link_dir rs.disk linkId false = .ok (store', count))
    (hreq : requiredArtifactsOf (jsonListD (linkConfig.getObjD "spec") "produces")
      = .ok required)
    (hguard : (!required.isEmpty && count = 0) = false) :
    executeLink o projectId pipelineId pipelineRunId linkId linkConfig false w rs =
      ({ rs with
          store := store',
          events := rs.events ++
            [skipEventOf o projectId pipelineId linkId w.runId linkConfig count],
          statusIndex := aupdate rs.statusIndex linkId "SKIPPED" }, .ok ()) := by
  simp only [executeLink, hskip, eq_self_iff_true, if_true, hre, hreq, hguard,
    Bool.false_eq_true, if_false]

/-- A loop pass consisting solely of ALREADY_DONE skips completes without a
failure pair and reaches exactly the state recorded by the derivation. -/
theorem runLoop_skipRun (o : Orchestrator) (projectId pipelineIdStr pipelineRunId : String)
    (overridesTop : Json) (rs : RunState) (worlds : List LinkWorld) (links : List Json)
    (rsF : RunState)
    (h : SkipRun o projectId pipelineIdStr pipelineRunId overridesTop rs worlds links rsF) :
    runLoop o projectId pipelineIdStr pipelineRunId overridesTop rs worlds links
      = (rsF, .ok none) := by
  induction h with
  | nil rs worlds => rfl
  | step rs worlds linkInfo rest linkIdStr linkMeta linkConfig cond w worlds' store' count
      required rsF hid hsh hreg hcfg hwhen hcond hpop hskip hre hreq hguard hrest ih =>
    have hexec := executeLink_skip o projectId pipelineIdStr pipelineRunId linkIdStr
      linkConfig w rs store' count required hskip hre hreq hguard
    simp only [runLoop, hid, hreg, Option.map_some', hcfg, hwhen, hcond, Bool.not_true,
      Bool.false_eq_true, if_false, hpop, hexec]
    cases linkInfo with
    | str s =>
      simp only []
      rw [if_neg (by simp [alookup_aupdate])]
      exact ih
    | obj ifs =>
      simp only [hsh ifs rfl]
      rw [if_neg (by simp [alookup_aupdate])]
      exact ih
    | null => exact absurd hid (by simp [entryIdOf])
    | bool b => exact absurd hid (by simp [entryIdOf])
    | num n => exact absurd hid (by simp [entryIdOf])
    | arr xs => exact absurd hid (by simp [entryIdOf])

/-- An all-skip pass leaves the project tree and the artifact index untouched
and appends only `skip`/`SUCCEEDED`/ALREADY_DONE events to the ledger. -/
theorem skipRun_frame (o : Orchestrator) (projectId pipelineIdStr pipelineRunId : String)
    (overridesTop : Json) (rs : RunState) (worlds : List LinkWorld) (links : List Json)
    (rsF : RunState)
    (h : SkipRun o projectId pipelineIdStr pipelineRunId overridesTop rs worlds links rsF) :
    rsF.disk = rs.disk ∧ rsF.artifactIndex = rs.artifactIndex ∧
    ∃ evs, rsF.events = rs.events ++ evs ∧
      ∀ e ∈ evs, e.stepId = "skip" ∧ e.status = "SUCCEEDED" ∧
        e.metrics.get? "reason" = some (.str "ALREADY_DONE") := by
  induction h with
  | nil rs worlds => exact ⟨rfl, rfl, [], by simp, by simp⟩
  | step rs worlds linkInfo rest linkIdStr linkMeta linkConfig cond w worlds' store' count
      required rsF hid hsh hreg hcfg hwhen hcond hpop hskip hre hreq hguard hrest ih =>
    obtain ⟨hd, ha, evs, he, hall⟩ := ih
    refine ⟨hd, ha,
      skipEventOf o projectId pipelineIdStr linkIdStr w.runId linkConfig count :: evs,
      ?_, ?_⟩
    · rw [he]
      simp [List.append_assoc]
    · intro e he'
      rcases List.mem_cons.mp he' with h1 | h1
      · subst h1
        exact ⟨rfl, rfl, rfl⟩
      · exact hall e h1

/-- A previously logged successful `link_complete` event for `mylink` whose
recorded `input_signature` matches what an unchanged empty project computes. -/
def priorCompleteEvent : LedgerEvent :=
  { mkEvent "proj" "pipe" "mylink" "r0" "link_complete" "SUCCEEDED" with
      metrics := .obj [("input_signature",
        .str (calculateInputSignature ArtifactStore.empty ⟨[], [], []⟩ "mylink" (.obj [])))] }

set_option maxRecDepth 4000 in
/-- Counterexample to **C2** as stated: on the ALREADY_DONE path the single
appended ledger event is the `skip` step with status `"SUCCEEDED"` (reason
`ALREADY_DONE` in its metrics) — not a `SKIPPED`-status event; only the
in-memory per-run status index records `"SKIPPED"`. -/
theorem skip_event_status_succeeded_counterexample :
    skipDecision [priorCompleteEvent] "mylink" (.obj [])
        (calculateInputSignature ArtifactStore.empty ⟨[], [], []⟩ "mylink" (.obj []))
      = true ∧
    (executeLink ⟨.obj [], "normal", "w:1", []⟩ "proj" "pipe" "prun" "mylink" (.obj [])
        false
        ⟨"r1", none, [], .returns .null, "", fun _ _ => none, false, .null, "", "", 0,
          .null, 0, 0⟩
        ⟨[priorCompleteEvent], ⟨[], [], []⟩, ArtifactStore.empty, [], [], [], []⟩)
      = (⟨[priorCompleteEvent,
            skipEventOf ⟨.obj [], "normal", "w:1", []⟩ "proj" "pipe" "mylink" "r1"
              (.obj []) 0],
          ⟨[], [], []⟩, ArtifactStore.empty, [], [("mylink", "SKIPPED")], [], []⟩,
         .ok ()) ∧
    (skipEventOf ⟨.obj [], "normal", "w:1", []⟩ "proj" "pipe" "mylink" "r1"
        (.obj []) 0).stepId = "skip" ∧
    (skipEventOf ⟨.obj [], "normal", "w:1", []⟩ "proj" "pipe" "mylink" "r1"
        (.obj []) 0).status = "SUCCEEDED" ∧
    (skipEventOf ⟨.obj [], "normal", "w:1", []⟩ "proj" "pipe" "mylink" "r1"
        (.obj []) 0).status ≠ "SKIPPED" :=
  ⟨by decide, rfl, rfl, rfl, by decide⟩

/-- `artifact_index.json` is read back intact through the two later writes of
the persistence step (`pipeline.yaml` and the run summary). -/
theorem loadArtifactIndex_writeFiles (d : Disk) (i : List (String × Json)) (bs : List Nat)
    (mt : Nat) (p2 : String) (fd2 : FileData) (p3 : String) (fd3 : FileData)
    (h2 : p2 ≠ "artifact_index.json") (h3 : p3 ≠ "artifact_index.json") :
    loadArtifactIndex
        (((d.writeFile "artifact_index.json" ⟨bs, mt, some (.obj i)⟩).writeFile p2
          fd2).writeFile p3 fd3)
      = .ok i := by
  unfold loadArtifactIndex Disk.writeFile
  rw [alookup_aupdate_of_ne _ _ _ _ (Ne.symm h3), alookup_aupdate_of_ne _ _ _ _ (Ne.symm h2),
    alookup_aupdate]

/-- **C2** (amended). Re-running the pipeline with no input changes after a
run that completed its persistence step: when every link of the second pass
takes the ALREADY_DONE skip (its input signature matches the most recent
`SUCCEEDED` `link_complete` event and rehydration from the on-disk manifest
succeeds — the `SkipRun` hypothesis), the second run succeeds and persists an
`artifact_index.json` literally identical to the first run's, and the events
it appends for the skipped links are exactly `skip`-step events with status
`"SUCCEEDED"` and reason `ALREADY_DONE` (not `SKIPPED`-status events; the
`SKIPPED` marking is only in the per-run status index). -/
theorem second_run_all_skips_identical_index (o : Orchestrator)
    (projectId pipelinePath : String) (cfg : Json) (ledger0 : List LedgerEvent)
    (d0 : Disk) (rw1 rw2 : RunWorld) (i1 : List (String × Json)) (rsF : RunState)
    (h1 : (runPipelineLocked o projectId pipelinePath cfg ledger0 d0 rw1).persistedIndex
        = some i1)
    (hload2 : loadArtifactIndex
        (runPipelineLocked o projectId pipelinePath cfg ledger0 d0 rw1).disk = .ok i1)
    (hpre2 : checkProjectSizeBudget o
        (runPipelineLocked o projectId pipelinePath cfg ledger0 d0 rw1).disk
        projectId (pipelineIdStrOf cfg) rw2.pipelineRunId = none)
    (hskips : SkipRun o projectId (pipelineIdStrOf cfg) rw2.pipelineRunId
        (cfg.getObjD "overrides")
        ⟨(runPipelineLocked o projectId pipelinePath cfg ledger0 d0 rw1).events,
         (runPipelineLocked o projectId pipelinePath cfg ledger0 d0 rw1).disk,
         ArtifactStore.empty, i1, [], [], []⟩
        rw2.linkWorlds (jsonListD cfg "links") rsF) :
    (runPipelineLocked o projectId pipelinePath cfg
        (runPipelineLocked o projectId pipelinePath cfg ledger0 d0 rw1).events
        (runPipelineLocked o projectId pipelinePath cfg ledger0 d0 rw1).disk
        rw2).persistedIndex = some i1 ∧
    (runPipelineLocked o projectId pipelinePath cfg
        (runPipelineLocked o projectId pipelinePath cfg ledger0 d0 rw1).events
        (runPipelineLocked o projectId pipelinePath cfg ledger0 d0 rw1).disk
        rw2).persistedIndex
      = (runPipelineLocked o projectId pipelinePath cfg ledger0 d0 rw1).persistedIndex ∧
    (runPipelineLocked o projectId pipelinePath cfg
        (runPipelineLocked o projectId pipelinePath cfg ledger0 d0 rw1).events
        (runPipelineLocked o projectId pipelinePath cfg ledger0 d0 rw1).disk
        rw2).result = .ok () ∧
    ∃ evs,
      (runPipelineLocked o projectId pipelinePath cfg
          (runPipelineLocked o projectId pipelinePath cfg ledger0 d0 rw1).events
          (runPipelineLocked o projectId pipelinePath cfg ledger0 d0 rw1).disk
          rw2).events
        = (runPipelineLocked o projectId pipelinePath cfg ledger0 d0 rw1).events ++ evs ∧
      ∀ e ∈ evs, e.stepId = "skip" ∧ e.status = "SUCCEEDED" ∧
        e.metrics.get? "reason" = some (.str "ALREADY_DONE") := by
  have hloop2 := runLoop_skipRun o projectId (pipelineIdStrOf cfg) rw2.pipelineRunId
    (cfg.getObjD "overrides") _ rw2.linkWorlds (jsonListD cfg "links") rsF hskips
  obtain ⟨hd2, ha2, evs, he2, hall⟩ := skipRun_frame o projectId (pipelineIdStrOf cfg)
    rw2.pipelineRunId (cfg.getObjD "overrides") _ rw2.linkWorlds (jsonListD cfg "links")
    rsF hskips
  set out1 := runPipelineLocked o projectId pipelinePath cfg ledger0 d0 rw1 with hout1
  refine ⟨?_, ?_, ?_, evs, ?_, hall⟩
  · simp only [runPipelineLocked, hpre2, hload2, hloop2]
    simpa using ha2
  · rw [h1]
    simp only [runPipelineLocked, hpre2, hload2, hloop2]
    simpa using ha2
  · simp only [runPipelineLocked, hpre2, hload2, hloop2]
  · simp only [runPipelineLocked, hpre2, hload2, hloop2, generateRunSummary]
    simpa using he2

/-- A minimal policy whose `normal` profile forbids source writes (no budget
sections, so size budgets are disabled). -/
def idemPolicy : Json :=
  .obj [("profiles", .obj [("normal", .obj
    [("allow_src_writes", .bool false), ("artifact_only_outputs", .bool false)])])]

/-- Registry metadata of the witness link: a five-second wall-time cap and no
`spec` section (no requires, no produces, condition `always`). -/
def idemMeta : Json := .obj [("max_wall_time_sec", .num 5)]

def idemOrch : Orchestrator :=
  ⟨idemPolicy, "normal", "w:1", [("mylink", ⟨"links/mylink", idemMeta⟩)]⟩

def idemCfg : Json := .obj [("pipelineId", .str "pipe"), ("links", .arr [.str "mylink"])]

/-- First run: the plugin loads, does nothing, and returns `None`. -/
def idemW1 : LinkWorld :=
  ⟨"r1", none, [], .returns .null, "", fun _ _ => none, false, .null, "", "", 0, .null, 0, 0⟩

def idemRw1 : RunWorld := ⟨"prun1", [idemW1], .null, .null, 0, none, 0, 5, 6, 7⟩

def idemW2 : LinkWorld :=
  ⟨"r2", none, [], .returns .null, "", fun _ _ => none, false, .null, "", "", 0, .null, 0, 0⟩

def idemRw2 : RunWorld := ⟨"prun2", [idemW2], .null, .null, 0, none, 0, 8, 9, 10⟩

set_option maxRecDepth 8000 in
/-- Witness for `second_run_all_skips_identical_index`: a one-link pipeline
run twice from an empty project; the second run's persisted
`artifact_index.json` equals the first run's and the second run succeeds. -/
theorem second_run_all_skips_identical_index_witness :
    (runPipelineLocked idemOrch "proj" "p.yaml" idemCfg [] ⟨[], [], []⟩
        idemRw1).persistedIndex = some [] ∧
    loadArtifactIndex
        (runPipelineLocked idemOrch "proj" "p.yaml" idemCfg [] ⟨[], [], []⟩ idemRw1).disk
      = .ok [] ∧
    (runPipelineLocked idemOrch "proj" "p.yaml" idemCfg
        (runPipelineLocked idemOrch "proj" "p.yaml" idemCfg [] ⟨[], [], []⟩ idemRw1).events
        (runPipelineLocked idemOrch "proj" "p.yaml" idemCfg [] ⟨[], [], []⟩ idemRw1).disk
        idemRw2).persistedIndex
      = (runPipelineLocked idemOrch "proj" "p.yaml" idemCfg [] ⟨[], [], []⟩
          idemRw1).persistedIndex ∧
    (runPipelineLocked idemOrch "proj" "p.yaml" idemCfg
        (runPipelineLocked idemOrch "proj" "p.yaml" idemCfg [] ⟨[], [], []⟩ idemRw1).events
        (runPipelineLocked idemOrch "proj" "p.yaml" idemCfg [] ⟨[], [], []⟩ idemRw1).disk
        idemRw2).result = .ok () :=
  have h := second_run_all_skips_identical_index idemOrch "proj" "p.yaml" idemCfg []
    ⟨[], [], []⟩ idemRw1 idemRw2 [] _
    rfl rfl rfl
    (SkipRun.step _ _ _ _ _ _ _ _ _ _ _ _ _ _
      rfl (fun ifs hh => Json.noConfusion hh) rfl rfl rfl rfl rfl (by decide) rfl rfl rfl
      (SkipRun.nil _ _))
  ⟨rfl, rfl, h.2.1, h.2.2.1⟩
